import Mathlib

/-!
Verification development for the SiliconRiver repository: a shallow
embedding of the ingestion pipeline (`src/scraper/fetch_models.py`,
`src/scraper/fetch_models_openrouter.py`), the schema
(`scripts/init_db.py`) and the read API (`backend/main.py`).

Python strings are modelled as lists of Unicode code points (`PyStr`),
so that Python's ASCII-range `str.lower`, `str.strip`, `str.split` and
PostgreSQL's byte-wise text comparison are plain `Nat` computations.
Database tables are modelled as Lean lists of row structures; SQL
statements are modelled as pure functions on those lists.  Network
calls are modelled by passing the data the network would return as
explicit arguments, so "the driver performs no network call" can be
stated as independence from those arguments.
-/

/-- Python `str`, as the list of its Unicode code points. -/
abbrev PyStr := List Nat

/-- Converts a Lean string literal to its `PyStr` code-point list. -/
def py (s : String) : PyStr := s.data.map Char.toNat

/-- Python `str.lower` on one code point (ASCII range, the only range the
repository's lowercased inputs use: provider keys, config lists, tags). -/
def lowerCp (n : Nat) : Nat := if 65 ≤ n ∧ n ≤ 90 then n + 32 else n

/-- Python `str.lower` (ASCII range). -/
def pyLower (s : PyStr) : PyStr := s.map lowerCp

/-- Python `str.strip` whitespace class (ASCII subset: space, tab, LF,
VT, FF, CR). -/
def isPySpaceCp (n : Nat) : Bool :=
  n == 32 || n == 9 || n == 10 || n == 11 || n == 12 || n == 13

/-- Removes the trailing whitespace run of a code-point list. -/
def stripEndL : PyStr → PyStr
  | [] => []
  | c :: cs =>
    let r := stripEndL cs
    if r.isEmpty then (if isPySpaceCp c then [] else [c]) else c :: r

/-- Python `str.strip`: drop leading and trailing whitespace. -/
def pyStrip (s : PyStr) : PyStr := stripEndL (s.dropWhile isPySpaceCp)

/-- Python `str.split(sep)` for a one-character separator (code point
`sep`): `"".split(sep) == [""]`, separators split eagerly. -/
def splitOnCp (sep : Nat) : PyStr → List PyStr
  | [] => [[]]
  | c :: rest =>
    let r := splitOnCp sep rest
    if c == sep then [] :: r
    else
      match r with
      | [] => [[c]]
      | h :: t => (c :: h) :: t

/-- Whether `p` occurs at the start of `s`. -/
def startsWithL : PyStr → PyStr → Bool
  | [], _ => true
  | _ :: _, [] => false
  | a :: ps, b :: ss => a == b && startsWithL ps ss

/-- Whether `p` occurs contiguously anywhere in `s` (Python `p in s`). -/
def containsSub (p : PyStr) : PyStr → Bool
  | [] => p.isEmpty
  | c :: ss => startsWithL p (c :: ss) || containsSub p ss

/-- Byte-wise (code-point-wise) lexicographic `≤` on text, the order
PostgreSQL's C collation uses for `BETWEEN` / `ORDER BY` on `TEXT`. -/
def strLe : PyStr → PyStr → Bool
  | [], _ => true
  | _ :: _, [] => false
  | a :: as, b :: bs => if a < b then true else if a = b then strLe as bs else false

theorem lowerCp_idem (n : Nat) : lowerCp (lowerCp n) = lowerCp n := by
  unfold lowerCp
  by_cases h : 65 ≤ n ∧ n ≤ 90
  · rw [if_pos h, if_neg (by omega)]
  · rw [if_neg h, if_neg h]

theorem pyLower_idem (s : PyStr) : pyLower (pyLower s) = pyLower s := by
  unfold pyLower
  rw [List.map_map]
  exact List.map_congr_left fun n _ => lowerCp_idem n

theorem isPySpaceCp_lowerCp (n : Nat) : isPySpaceCp (lowerCp n) = isPySpaceCp n := by
  unfold lowerCp
  by_cases h : 65 ≤ n ∧ n ≤ 90
  · rw [if_pos h]
    have ha : isPySpaceCp (n + 32) = false := by
      simp only [isPySpaceCp, Bool.or_eq_false_iff, beq_eq_false_iff_ne, ne_eq]
      omega
    have hb : isPySpaceCp n = false := by
      simp only [isPySpaceCp, Bool.or_eq_false_iff, beq_eq_false_iff_ne, ne_eq]
      omega
    rw [ha, hb]
  · rw [if_neg h]

theorem dropSpaces_idem (l : PyStr) :
    (l.dropWhile isPySpaceCp).dropWhile isPySpaceCp = l.dropWhile isPySpaceCp := by
  induction l with
  | nil => rfl
  | cons c cs ih =>
    by_cases h : isPySpaceCp c = true
    · simpa [List.dropWhile, h] using ih
    · have h' : isPySpaceCp c = false := by
        cases hh : isPySpaceCp c
        · rfl
        · exact absurd hh h
      simp [List.dropWhile, h']

/-- A nonempty `stripEndL` output keeps the head of its input. -/
theorem stripEndL_head (c : Nat) (cs : PyStr) :
    stripEndL (c :: cs) = [] ∨ ∃ r, stripEndL (c :: cs) = c :: r := by
  simp only [stripEndL]
  cases h : stripEndL cs with
  | nil =>
    by_cases hs : isPySpaceCp c
    · left; simp [hs]
    · right; exact ⟨[], by simp [hs]⟩
  | cons x xs => right; exact ⟨x :: xs, by simp⟩

theorem stripEndL_idem (l : PyStr) : stripEndL (stripEndL l) = stripEndL l := by
  induction l with
  | nil => rfl
  | cons c cs ih =>
    cases h : stripEndL cs with
    | nil =>
      by_cases hs : isPySpaceCp c
      · rw [show stripEndL (c :: cs) = [] from by simp [stripEndL, h, hs]]
        rfl
      · rw [show stripEndL (c :: cs) = [c] from by simp [stripEndL, h, hs]]
        simp [stripEndL, hs]
    | cons x xs =>
      have ih' : stripEndL (x :: xs) = x :: xs := by rw [← h, ih, h]
      rw [show stripEndL (c :: cs) = c :: x :: xs from by simp [stripEndL, h]]
      rw [show stripEndL (c :: x :: xs)
          = if (stripEndL (x :: xs)).isEmpty then (if isPySpaceCp c then [] else [c])
            else c :: stripEndL (x :: xs) from rfl]
      rw [ih']
      simp

theorem pyStrip_idem (s : PyStr) : pyStrip (pyStrip s) = pyStrip s := by
  unfold pyStrip
  have hdrop : (stripEndL (s.dropWhile isPySpaceCp)).dropWhile isPySpaceCp
      = stripEndL (s.dropWhile isPySpaceCp) := by
    cases hct : s.dropWhile isPySpaceCp with
    | nil => simp [stripEndL]
    | cons a as =>
      have ha : ¬ isPySpaceCp a = true := by
        have hl : 0 < (s.dropWhile isPySpaceCp).length := by rw [hct]; simp
        have hz := List.dropWhile_get_zero_not (p := isPySpaceCp) s hl
        have hget : (s.dropWhile isPySpaceCp).get ⟨0, hl⟩ = a := by
          simp [hct]
        rw [hget] at hz
        exact hz
      rcases stripEndL_head a as with hnil | ⟨r, hr⟩
      · rw [hnil]; rfl
      · rw [hr, List.dropWhile_cons_of_neg ha]
  rw [hdrop, stripEndL_idem]

theorem dropSpaces_lower_comm (l : PyStr) :
    (l.map lowerCp).dropWhile isPySpaceCp = (l.dropWhile isPySpaceCp).map lowerCp := by
  induction l with
  | nil => rfl
  | cons c cs ih =>
    by_cases h : isPySpaceCp c = true
    · rw [List.map_cons, List.dropWhile_cons_of_pos (by rw [isPySpaceCp_lowerCp]; exact h),
        List.dropWhile_cons_of_pos h, ih]
    · have h' : isPySpaceCp c = false := by
        cases hh : isPySpaceCp c
        · rfl
        · exact absurd hh h
      rw [List.map_cons,
        List.dropWhile_cons_of_neg (by rw [isPySpaceCp_lowerCp, h']; exact Bool.false_ne_true),
        List.dropWhile_cons_of_neg (by rw [h']; exact Bool.false_ne_true), List.map_cons]

theorem stripEndL_lower_comm (l : PyStr) :
    stripEndL (l.map lowerCp) = (stripEndL l).map lowerCp := by
  induction l with
  | nil => rfl
  | cons c cs ih =>
    rw [List.map_cons]
    simp only [stripEndL, ih]
    cases h : stripEndL cs with
    | nil =>
      simp only [List.map_nil, List.isEmpty_nil, if_true]
      rw [isPySpaceCp_lowerCp]
      by_cases hs : isPySpaceCp c
      · simp [hs]
      · simp [hs]
    | cons x xs => simp

theorem pyStrip_lower_comm (s : PyStr) : pyStrip (pyLower s) = pyLower (pyStrip s) := by
  unfold pyStrip pyLower
  rw [dropSpaces_lower_comm, stripEndL_lower_comm]

theorem strLe_refl (a : PyStr) : strLe a a = true := by
  induction a with
  | nil => rfl
  | cons x xs ih => simp [strLe, ih]

theorem strLe_total : ∀ a b : PyStr, strLe a b = true ∨ strLe b a = true
  | [], _ => Or.inl rfl
  | _ :: _, [] => Or.inr rfl
  | x :: xs, y :: ys => by
    rcases Nat.lt_trichotomy x y with h | h | h
    · left; simp [strLe, h]
    · subst h
      rcases strLe_total xs ys with h' | h'
      · left; simp [strLe, h']
      · right; simp [strLe, h']
    · right; simp [strLe, h]

theorem strLe_trans : ∀ a b c : PyStr,
    strLe a b = true → strLe b c = true → strLe a c = true
  | [], _, _ => by intro _ _; rfl
  | x :: xs, [], _ => by intro h _; simp [strLe] at h
  | _ :: _, _ :: _, [] => by intro _ h; simp [strLe] at h
  | x :: xs, y :: ys, z :: zs => by
    intro h1 h2
    simp only [strLe] at h1 h2 ⊢
    rcases Nat.lt_trichotomy x y with hxy | hxy | hxy
    · rcases Nat.lt_trichotomy y z with hyz | hyz | hyz
      · rw [if_pos (lt_trans hxy hyz)]
      · subst hyz; rw [if_pos hxy]
      · exfalso; rw [if_neg (by omega), if_neg (by omega)] at h2; simp at h2
    · subst hxy
      rw [if_neg (lt_irrefl x), if_pos rfl] at h1
      rcases Nat.lt_trichotomy x z with hxz | hxz | hxz
      · rw [if_pos hxz]
      · subst hxz
        rw [if_neg (lt_irrefl x), if_pos rfl] at h2 ⊢
        exact strLe_trans xs ys zs h1 h2
      · exfalso; rw [if_neg (by omega), if_neg (by omega)] at h2; simp at h2
    · exfalso; rw [if_neg (by omega), if_neg (by omega)] at h1; simp at h1

/-- Decimal digits, with structural fuel (`n` has at most `n + 1`
digits, so the fuel never runs out). -/
def natToDecAux : Nat → Nat → PyStr
  | 0, _ => []
  | fuel + 1, n => if n < 10 then [48 + n] else natToDecAux fuel (n / 10) ++ [48 + n % 10]

/-- Decimal digits of a natural number, as code points. -/
def natToDec (n : Nat) : PyStr := natToDecAux (n + 1) n

/-- Left-pads with ASCII zeros to the given width. -/
def padZeros (w : Nat) (s : PyStr) : PyStr := List.replicate (w - s.length) 48 ++ s

def pad2 (n : Nat) : PyStr := padZeros 2 (natToDec n)

def pad4 (n : Nat) : PyStr := padZeros 4 (natToDec n)

def pad6 (n : Nat) : PyStr := padZeros 6 (natToDec n)

/-- Lowercase hexadecimal digit. -/
def hexDigit (d : Nat) : Nat := if d < 10 then 48 + d else 87 + d

/-- Escape of one code point inside a JSON string literal, per Python
`json.dumps` with `ensure_ascii=False`. -/
def jsonEscapeCp (c : Nat) : PyStr :=
  if c = 34 then [92, 34]
  else if c = 92 then [92, 92]
  else if c = 8 then [92, 98]
  else if c = 9 then [92, 116]
  else if c = 10 then [92, 110]
  else if c = 12 then [92, 102]
  else if c = 13 then [92, 114]
  else if c < 32 then
    [92, 117, hexDigit (c / 4096 % 16), hexDigit (c / 256 % 16),
     hexDigit (c / 16 % 16), hexDigit (c % 16)]
  else [c]

/-- JSON string literal for a text value. -/
def jsonStringLit (s : PyStr) : PyStr :=
  [34] ++ s.foldr (fun c acc => jsonEscapeCp c ++ acc) [] ++ [34]

/-- Python `json.dumps(tags, ensure_ascii=False)` for a list of strings
(the only shape the repository ever dumps into the `tags` column):
square brackets around `", "`-separated string literals. -/
def dumpsTags (tags : List PyStr) : PyStr :=
  [91] ++ List.intercalate (py ", ") (tags.map jsonStringLit) ++ [93]

/-- JSON whitespace. -/
def isJsonWs (c : Nat) : Bool := c == 32 || c == 9 || c == 10 || c == 13

def skipWs (s : PyStr) : PyStr := s.dropWhile isJsonWs

/-- Value of a hexadecimal digit. -/
def hexVal (c : Nat) : Option Nat :=
  if 48 ≤ c ∧ c ≤ 57 then some (c - 48)
  else if 97 ≤ c ∧ c ≤ 102 then some (c - 87)
  else if 65 ≤ c ∧ c ≤ 70 then some (c - 55)
  else none

/-- Single-character JSON escape codes. -/
def escChar (e : Nat) : Option Nat :=
  if e = 34 then some 34
  else if e = 92 then some 92
  else if e = 47 then some 47
  else if e = 98 then some 8
  else if e = 102 then some 12
  else if e = 110 then some 10
  else if e = 114 then some 13
  else if e = 116 then some 9
  else none

/-- Parses the body of a JSON string literal (after the opening quote);
returns the decoded content and the input remaining after the closing
quote.  `fuel` bounds recursion by the input length. -/
def parseJStr : Nat → PyStr → Option (PyStr × PyStr)
  | 0, _ => none
  | _, [] => none
  | fuel + 1, c :: rest =>
    if c = 34 then some ([], rest)
    else if c = 92 then
      match rest with
      | [] => none
      | e :: rest2 =>
        if e = 117 then
          match rest2 with
          | h1 :: h2 :: h3 :: h4 :: rest3 =>
            match hexVal h1, hexVal h2, hexVal h3, hexVal h4 with
            | some a, some b, some c3, some d =>
              match parseJStr fuel rest3 with
              | some (s, rem) => some ((a * 4096 + b * 256 + c3 * 16 + d) :: s, rem)
              | none => none
            | _, _, _, _ => none
          | _ => none
        else
          match escChar e with
          | some ec =>
            match parseJStr fuel rest2 with
            | some (s, rem) => some (ec :: s, rem)
            | none => none
          | none => none
    else
      match parseJStr fuel rest with
      | some (s, rem) => some (c :: s, rem)
      | none => none

/-- Parses the elements of a JSON array of strings after the first
element, accumulating in order. -/
def parseJArrLoop : Nat → List PyStr → PyStr → Option (List PyStr)
  | 0, _, _ => none
  | fuel + 1, acc, rem =>
    match skipWs rem with
    | 93 :: rest => if (skipWs rest).isEmpty then some acc else none
    | 44 :: rest =>
      match skipWs rest with
      | 34 :: rest2 =>
        match parseJStr (rest2.length + 1) rest2 with
        | some (s, rem2) => parseJArrLoop fuel (acc ++ [s]) rem2
        | none => none
      | _ => none
    | _ => none

/-- Python `json.loads`, restricted to top-level arrays of strings — the
only JSON the repository's writers store in the `tags` column.  Returns
`none` (modelling `JSONDecodeError`) on anything else. -/
def loadsStrArray (s : PyStr) : Option (List PyStr) :=
  match skipWs s with
  | 91 :: rest =>
    match skipWs rest with
    | 93 :: rest2 => if (skipWs rest2).isEmpty then some [] else none
    | 34 :: rest2 =>
      match parseJStr (rest2.length + 1) rest2 with
      | some (s1, rem) => parseJArrLoop (rem.length + 1) [s1] rem
      | none => none
    | _ => none
  | _ => none

/-- Days since 1970-01-01 of a proleptic-Gregorian civil date
(Howard Hinnant's algorithm, floor division throughout). -/
def daysFromCivil (y m d : Int) : Int :=
  let y' := if m ≤ 2 then y - 1 else y
  let era := Int.fdiv y' 400
  let yoe := y' - era * 400
  let mp := if m > 2 then m - 3 else m + 9
  let doy := Int.fdiv (153 * mp + 2) 5 + d - 1
  let doe := yoe * 365 + Int.fdiv yoe 4 - Int.fdiv yoe 100 + doy
  era * 146097 + doe - 719468

/-- Civil date (year, month, day) of a count of days since 1970-01-01. -/
def civilFromDays (z0 : Int) : Int × Int × Int :=
  let z := z0 + 719468
  let era := Int.fdiv z 146097
  let doe := z - era * 146097
  let yoe := Int.fdiv (doe - Int.fdiv doe 1460 + Int.fdiv doe 36524 - Int.fdiv doe 146096) 365
  let y := yoe + era * 400
  let doy := doe - (365 * yoe + Int.fdiv yoe 4 - Int.fdiv yoe 100)
  let mp := Int.fdiv (5 * doy + 2) 153
  let d := doy - Int.fdiv (153 * mp + 2) 5 + 1
  let m := if mp < 10 then mp + 3 else mp - 9
  (if m ≤ 2 then y + 1 else y, m, d)

/-- A naive UTC `datetime.datetime` value. -/
structure PyDateTime where
  year : Nat
  month : Nat
  day : Nat
  hour : Nat
  minute : Nat
  second : Nat
  micro : Nat
deriving DecidableEq

/-- Python `datetime.fromtimestamp(e, tz=timezone.utc)` for integral
epoch seconds. -/
def epochToUtc (e : Int) : PyDateTime :=
  let days := Int.fdiv e 86400
  let secs := (e - days * 86400).toNat
  let c := civilFromDays days
  ⟨c.1.toNat, c.2.1.toNat, c.2.2.toNat, secs / 3600, secs % 3600 / 60, secs % 60, 0⟩

/-- The scrapers' `TIMESTAMP_FORMAT` rendering `"%Y-%m-%d %H:%M:%S"`
(space between date and time, no fractional seconds). -/
def tsFormat (t : PyDateTime) : PyStr :=
  pad4 t.year ++ py "-" ++ pad2 t.month ++ py "-" ++ pad2 t.day ++ py " "
    ++ pad2 t.hour ++ py ":" ++ pad2 t.minute ++ py ":" ++ pad2 t.second

/-- Python `datetime.isoformat()`: `'T'` between date and time, and a
6-digit fractional part exactly when microseconds are nonzero. -/
def isoformat (t : PyDateTime) : PyStr :=
  pad4 t.year ++ py "-" ++ pad2 t.month ++ py "-" ++ pad2 t.day ++ py "T"
    ++ pad2 t.hour ++ py ":" ++ pad2 t.minute ++ py ":" ++ pad2 t.second
    ++ (if t.micro = 0 then [] else py "." ++ pad6 t.micro)

/-- Component list used to compare `datetime` values chronologically. -/
def dtKey (t : PyDateTime) : List Nat :=
  [t.year, t.month, t.day, t.hour, t.minute, t.second, t.micro]

/-- Chronological `≤` on `datetime` values. -/
def dtLe (a b : PyDateTime) : Bool := strLe (dtKey a) (dtKey b)

/-- Chronological `<` on `datetime` values. -/
def dtLt (a b : PyDateTime) : Bool := dtLe a b && !(dtKey a == dtKey b)

/-- Python `t - timedelta(days=n)` for a naive datetime. -/
def subDays (t : PyDateTime) (n : Nat) : PyDateTime :=
  let c := civilFromDays (daysFromCivil t.year t.month t.day - n)
  ⟨c.1.toNat, c.2.1.toNat, c.2.2.toNat, t.hour, t.minute, t.second, t.micro⟩

/-- One row of the `models` table (`scripts/init_db.py`), with the
enrichment columns the scrapers' SQL also writes (`price`,
`is_open_source`, `opencompass_rank`, `huggingface_rank`).  `tags` is the
serialized text column; `price` the serialized JSON payload or NULL.
The `id BIGSERIAL` surrogate and `updated_at` bookkeeping are omitted:
no claim mentions them. -/
structure ModelsRow where
  model_id : PyStr
  provider : PyStr
  model_name : PyStr
  description : PyStr
  tags : PyStr
  created_at : PyStr
  downloads : Option Int
  likes : Option Int
  model_card_url : PyStr
  inserted_at : PyStr
  is_open_source : Option Bool
  price : Option PyStr
  opencompass_rank : Option Int
  huggingface_rank : Option Int
deriving DecidableEq

/-- One row of the append-only `sync_log` table. -/
structure SyncLogRow where
  provider : PyStr
  started_at : PyStr
  finished_at : PyStr
  status : PyStr
  processed : Nat
  inserted : Nat
  error_message : Option PyStr
deriving DecidableEq

/-- One row of the `model_tags` table. -/
structure TagRow where
  model_id : PyStr
  tag : PyStr
  inserted_at : PyStr
deriving DecidableEq

/-- One row of the `providers` table (`updated_at` bookkeeping omitted:
no claim mentions it). -/
structure ProvidersRow where
  provider_id : PyStr
  display_name : Option PyStr
  avatar_url : Option PyStr
  avatar_blob : Option (List Nat)
  avatar_mime : Option PyStr
deriving DecidableEq

/-- The database state: the four tables of `scripts/init_db.py`. -/
structure DBState where
  models : List ModelsRow
  model_tags : List TagRow
  sync_log : List SyncLogRow
  providers : List ProvidersRow
deriving DecidableEq

/-- Lookup on the `UNIQUE (model_id)` key. -/
def findModel (rows : List ModelsRow) (mid : PyStr) : Option ModelsRow :=
  rows.find? (fun row => row.model_id == mid)

/-- Lookup on the `providers` primary key. -/
def findProvider (rows : List ProvidersRow) (pid : PyStr) : Option ProvidersRow :=
  rows.find? (fun row => row.provider_id == pid)

/-- One `INSERT INTO model_tags ... ON CONFLICT (model_id, tag) DO
UPDATE SET inserted_at = EXCLUDED.inserted_at` statement. -/
def insertTagRow (rows : List TagRow) (mid tg ins : PyStr) : List TagRow :=
  if rows.any (fun t => t.model_id == mid && t.tag == tg) then
    rows.map (fun t =>
      if t.model_id == mid && t.tag == tg then { t with inserted_at := ins } else t)
  else rows ++ [⟨mid, tg, ins⟩]

namespace HF

/-- The `ModelRecord` dataclass of `src/scraper/fetch_models.py`.
`tags` is still the Python list; `price` stands for the serialized form
of the optional price dict (`save_models` only ever dumps it or passes
NULL, so only its presence matters). -/
structure ModelRecord where
  model_id : PyStr
  provider : PyStr
  model_name : PyStr
  description : PyStr
  tags : List PyStr
  created_at : PyStr
  downloads : Option Int
  likes : Option Int
  model_card_url : PyStr
  inserted_at : PyStr
  is_open_source : Option Bool
  price : Option PyStr
  opencompass_rank : Option Int
  huggingface_rank : Option Int
deriving DecidableEq

/-- Hugging Face `get_providers`: comma-split, strip each entry, drop
entries that strip to empty; case preserved. -/
def get_providers (raw : Option PyStr) : List PyStr :=
  match raw with
  | none => []
  | some s =>
    if s.isEmpty then []
    else (splitOnCp 44 s).filterMap
      (fun p => let q := pyStrip p; if q.isEmpty then none else some q)

/-- The `DO UPDATE SET` arm of the Hugging Face `save_models` upsert:
descriptive columns take `EXCLUDED` values unconditionally, the
enrichment columns `price`, `opencompass_rank`, `huggingface_rank` take
`COALESCE(EXCLUDED.x, models.x)`. -/
def mergedRow (old : ModelsRow) (r : ModelRecord) : ModelsRow :=
  { model_id := old.model_id
    provider := r.provider
    model_name := r.model_name
    description := r.description
    tags := dumpsTags r.tags
    created_at := r.created_at
    downloads := r.downloads
    likes := r.likes
    model_card_url := r.model_card_url
    inserted_at := r.inserted_at
    is_open_source := r.is_open_source
    price := match r.price with | some v => some v | none => old.price
    opencompass_rank := match r.opencompass_rank with | some v => some v | none => old.opencompass_rank
    huggingface_rank := match r.huggingface_rank with | some v => some v | none => old.huggingface_rank }

/-- The insert arm of the Hugging Face `save_models` upsert. -/
def freshRow (r : ModelRecord) : ModelsRow :=
  { model_id := r.model_id
    provider := r.provider
    model_name := r.model_name
    description := r.description
    tags := dumpsTags r.tags
    created_at := r.created_at
    downloads := r.downloads
    likes := r.likes
    model_card_url := r.model_card_url
    inserted_at := r.inserted_at
    is_open_source := r.is_open_source
    price := r.price
    opencompass_rank := r.opencompass_rank
    huggingface_rank := r.huggingface_rank }

/-- Replaces the (unique) row keyed by `mid`. -/
def replaceModel (rows : List ModelsRow) (mid : PyStr) (new : ModelsRow) : List ModelsRow :=
  rows.map (fun row => if row.model_id == mid then new else row)

/-- One `INSERT INTO models ... ON CONFLICT (model_id) DO UPDATE`
statement of the Hugging Face `save_models`. -/
def upsertModelRow (rows : List ModelsRow) (r : ModelRecord) : List ModelsRow :=
  match findModel rows r.model_id with
  | some old => replaceModel rows r.model_id (mergedRow old r)
  | none => rows ++ [freshRow r]

/-- Loop body of the Hugging Face `save_models`: one record's upsert,
tag resynchronization (DELETE all `model_tags` rows of the model, then
re-insert the record's tags) and counter updates.  `cursor.rowcount`
after `INSERT ... ON CONFLICT (model_id) DO UPDATE` is 1 whether the
row was inserted or updated (PostgreSQL affected-row semantics), hence
`inserted_row = 1`. -/
def saveStep (acc : DBState × Nat × Nat) (r : ModelRecord) : DBState × Nat × Nat :=
  let d := acc.1
  let models' := upsertModelRow d.models r
  let inserted_row : Nat := 1
  let tagsCleared := d.model_tags.filter (fun t => !(t.model_id == r.model_id))
  let tags' := r.tags.foldl (fun rows tg => insertTagRow rows r.model_id tg r.inserted_at)
    tagsCleared
  ({ d with models := models', model_tags := tags' },
    acc.2.1 + 1, if inserted_row ≠ 0 then acc.2.2 + 1 else acc.2.2)

/-- Hugging Face `save_models` (`fetch_models.py`, lines 352-431): fold
`saveStep` over the records, then append one `sync_log` row and commit,
returning `(processed, inserted)`. -/
def save_models (db : DBState) (provider : PyStr) (records : List ModelRecord)
    (started_at finished_at : PyStr) : DBState × Nat × Nat :=
  let out := records.foldl saveStep (db, 0, 0)
  let d2 := { out.1 with sync_log := out.1.sync_log ++
    [⟨provider, started_at, finished_at, py "success", out.2.1, out.2.2, none⟩] }
  (d2, out.2.1, out.2.2)

/-- Hugging Face `upsert_provider`: insert-or-replace every column with
the freshly fetched values (`display_name`, `avatar_url`, `avatar_blob`,
`avatar_mime` all take `EXCLUDED` values unconditionally). -/
def upsert_provider (providers : List ProvidersRow) (provider_id : PyStr)
    (avatar_url : Option PyStr) (display_name : Option PyStr)
    (avatar_content : Option (List Nat)) (avatar_mime : Option PyStr) : List ProvidersRow :=
  match findProvider providers provider_id with
  | some _ =>
    providers.map (fun p =>
      if p.provider_id == provider_id then
        { p with
          display_name := display_name
          avatar_url := avatar_url
          avatar_blob := avatar_content
          avatar_mime := avatar_mime }
      else p)
  | none =>
    providers ++ [⟨provider_id, display_name, avatar_url, avatar_content, avatar_mime⟩]

/-- Overwrite semantics of `results[provider] = value` on a dict. -/
def setResult (rs : List (PyStr × Nat × Nat)) (k : PyStr) (v : Nat × Nat) :
    List (PyStr × Nat × Nat) :=
  if rs.any (fun x => x.1 == k) then rs.map (fun x => if x.1 == k then (k, v) else x)
  else rs ++ [(k, v)]

/-- Hugging Face `fetch_and_store`.  The network is modelled by oracles:
`profileOf` for `resolve_provider_profile`, `avatarOf` for
`download_provider_avatar`, `listingOf` for `client.list_models`
composed with `to_record`, `timesOf` for the run's start/finish wall
clock.  An empty `PROVIDERS` allowlist raises `RuntimeError` before any
of the oracles is consulted. -/
def fetch_and_store (providersEnv : Option PyStr)
    (profileOf : PyStr → PyStr × Option PyStr)
    (avatarOf : Option PyStr → Option (List Nat) × Option PyStr)
    (listingOf : PyStr → List ModelRecord)
    (timesOf : PyStr → PyStr × PyStr)
    (db : DBState) : Except PyStr (DBState × List (PyStr × Nat × Nat)) :=
  let providers := get_providers providersEnv
  if providers.isEmpty then
    Except.error (py "PROVIDERS is not configured. Set it in environment or .env file.")
  else
    Except.ok (providers.foldl (fun acc p =>
      let prof := profileOf p
      let av := avatarOf prof.2
      let db1 := { acc.1 with
        providers := upsert_provider acc.1.providers p prof.2 (some prof.1) av.1 av.2 }
      let ts := timesOf p
      let out := save_models db1 p (listingOf p) ts.1 ts.2
      (out.1, setResult acc.2 p (out.2.1, out.2.2))) (db, []))

end HF

/-- UTF-8 bytes of a code point. -/
def utf8Bytes (c : Nat) : List Nat :=
  if c < 128 then [c]
  else if c < 2048 then [192 + c / 64, 128 + c % 64]
  else if c < 65536 then [224 + c / 4096, 128 + c / 64 % 64, 128 + c % 64]
  else [240 + c / 262144, 128 + c / 4096 % 64, 128 + c / 64 % 64, 128 + c % 64]

/-- Bytes `urllib.parse.quote` leaves unencoded when `safe=""`:
alphanumerics and `_ . - ~`. -/
def isUnquotedByte (b : Nat) : Bool :=
  (48 ≤ b && b ≤ 57) || (65 ≤ b && b ≤ 90) || (97 ≤ b && b ≤ 122)
    || b == 95 || b == 46 || b == 45 || b == 126

/-- Uppercase hexadecimal digit. -/
def hexDigitU (d : Nat) : Nat := if d < 10 then 48 + d else 55 + d

/-- Python `urllib.parse.quote(s, safe="")`: percent-encode every UTF-8
byte outside the unreserved set. -/
def quoteStr (s : PyStr) : PyStr :=
  (s.foldr (fun c acc => utf8Bytes c ++ acc) []).foldr
    (fun b acc =>
      if isUnquotedByte b then b :: acc
      else 37 :: hexDigitU (b / 16) :: hexDigitU (b % 16) :: acc) []

namespace OpenRouter

/-- OpenRouter `get_providers`: comma-split, strip each entry, drop
entries that strip to empty, and lowercase every kept entry. -/
def get_providers (raw : Option PyStr) : List PyStr :=
  match raw with
  | none => []
  | some s =>
    if s.isEmpty then []
    else (splitOnCp 44 s).filterMap
      (fun p => let q := pyStrip p; if q.isEmpty then none else some (pyLower q))

/-- OpenRouter `normalise_timestamp`: epoch seconds to the scrapers'
`TIMESTAMP_FORMAT`, current time when absent.  The epoch is modelled as
integral seconds (`now` models `datetime.now(timezone.utc)`). -/
def normalise_timestamp (epoch_seconds : Option Int) (now : PyDateTime) : PyStr :=
  match epoch_seconds with
  | none => tsFormat now
  | some v => tsFormat (epochToUtc v)

/-- Fallback of `extract_provider` when the display name is falsy: the
identifier's portion before the first `/` (stripped, lowercased), with
empty results replaced by `"unknown"`. -/
def extractFromId (model_id : Option PyStr) : PyStr :=
  match model_id with
  | some mid =>
    if !mid.isEmpty && mid.contains 47 then
      let q := pyLower (pyStrip (mid.takeWhile (fun c => c != 47)))
      if q.isEmpty then py "unknown" else q
    else py "unknown"
  | none => py "unknown"

/-- OpenRouter `extract_provider` (`fetch_models_openrouter.py`,
lines 101-116), translated branch by branch. -/
def extract_provider (name : Option PyStr) (model_id : Option PyStr) : PyStr :=
  match name with
  | none => extractFromId model_id
  | some n =>
    if n.isEmpty then extractFromId model_id
    else
      let provider_raw := pyStrip (n.takeWhile (fun c => c != 58))
      if !provider_raw.isEmpty then pyLower provider_raw
      else
        let stripped := pyStrip n
        if !stripped.isEmpty then pyLower stripped
        else
          match model_id with
          | some mid =>
            if !mid.isEmpty && mid.contains 47 then
              pyLower (pyStrip (mid.takeWhile (fun c => c != 47)))
            else py "unknown"
          | none => py "unknown"

/-- One raw OpenRouter listing item, with the fields `to_record` reads.
`created` is modelled as integral epoch seconds; `pricing` as the
key/value pairs of the pricing dict when the payload is a dict. -/
structure RawItem where
  id : Option PyStr
  name : Option PyStr
  description : Option PyStr
  created : Option Int
  pricing : Option (List (PyStr × PyStr))
deriving DecidableEq

/-- Python `json.dumps` of a flat string-valued pricing dict
(`ensure_ascii=False`). -/
def dumpsPricing (kv : List (PyStr × PyStr)) : PyStr :=
  [123] ++ List.intercalate (py ", ")
    (kv.map (fun p => jsonStringLit p.1 ++ py ": " ++ jsonStringLit p.2)) ++ [125]

/-- The `ModelRecord` dataclass of `fetch_models_openrouter.py`. -/
structure ModelRecord where
  model_id : PyStr
  provider : PyStr
  model_name : PyStr
  description : PyStr
  created_at : PyStr
  model_card_url : PyStr
  inserted_at : PyStr
  price : Option (List (PyStr × PyStr))
  is_open_source : Option Bool
  opencompass_rank : Option Int
  huggingface_rank : Option Int
deriving DecidableEq

/-- OpenRouter `to_record` (`fetch_models_openrouter.py`, lines
119-148).  `now` models `datetime.now(timezone.utc)`. -/
def to_record (now : PyDateTime) (raw : RawItem) : ModelRecord :=
  let model_id : PyStr := match raw.id with
    | some s => if s.isEmpty then [] else s
    | none => []
  let name := match raw.name with
    | some s => if s.isEmpty then model_id else s
    | none => model_id
  let provider := extract_provider (some name) (some model_id)
  let description : PyStr := match raw.description with
    | some s => s
    | none => []
  let created_at := normalise_timestamp raw.created now
  let inserted_at := tsFormat now
  let encoded_id := quoteStr (if model_id.isEmpty then name else model_id)
  let model_card_url := py "https://openrouter.ai/models/" ++ encoded_id
  let price_payload := match raw.pricing with
    | some d => if d.isEmpty then none else some d
    | none => none
  let is_open_source := !model_id.isEmpty && containsSub (py ":free") (pyLower model_id)
  { model_id := if model_id.isEmpty then encoded_id else model_id
    provider := if provider.isEmpty then py "unknown" else provider
    model_name := name
    description := description.take 5000
    created_at := created_at
    model_card_url := model_card_url
    inserted_at := inserted_at
    price := price_payload
    is_open_source := some is_open_source
    opencompass_rank := none
    huggingface_rank := none }

/-- The `DO UPDATE SET` arm of the OpenRouter `save_models` upsert:
descriptive columns take `EXCLUDED` values, `price` and the rank
columns take `COALESCE(EXCLUDED.x, models.x)`; `downloads` and `likes`
are not in the update column list, so the stored values persist. -/
def mergedRow (old : ModelsRow) (provider : PyStr) (r : ModelRecord) : ModelsRow :=
  { old with
    provider := provider
    model_name := r.model_name
    description := r.description
    tags := dumpsTags []
    created_at := r.created_at
    model_card_url := r.model_card_url
    inserted_at := r.inserted_at
    price := match r.price with | some v => some (dumpsPricing v) | none => old.price
    is_open_source := r.is_open_source
    opencompass_rank := match r.opencompass_rank with | some v => some v | none => old.opencompass_rank
    huggingface_rank := match r.huggingface_rank with | some v => some v | none => old.huggingface_rank }

/-- The insert arm of the OpenRouter `save_models` upsert: `downloads`
and `likes` are passed as NULL, `tags` as `json.dumps([])`. -/
def freshRow (provider : PyStr) (r : ModelRecord) : ModelsRow :=
  { model_id := r.model_id
    provider := provider
    model_name := r.model_name
    description := r.description
    tags := dumpsTags []
    created_at := r.created_at
    downloads := none
    likes := none
    model_card_url := r.model_card_url
    inserted_at := r.inserted_at
    is_open_source := r.is_open_source
    price := match r.price with | some v => some (dumpsPricing v) | none => none
    opencompass_rank := r.opencompass_rank
    huggingface_rank := r.huggingface_rank }

/-- One `INSERT INTO models ... ON CONFLICT (model_id) DO UPDATE`
statement of the OpenRouter `save_models`. -/
def upsertModelRow (rows : List ModelsRow) (provider : PyStr) (r : ModelRecord) :
    List ModelsRow :=
  match findModel rows r.model_id with
  | some old => HF.replaceModel rows r.model_id (mergedRow old provider r)
  | none => rows ++ [freshRow provider r]

/-- Loop body of the OpenRouter `save_models`: one record's upsert and
the counter updates (`cursor.rowcount` is 1 for the `DO UPDATE` upsert
whether the row was inserted or updated). -/
def saveStep (provider : PyStr) (acc : DBState × Nat × Nat) (r : ModelRecord) :
    DBState × Nat × Nat :=
  let d := acc.1
  let models' := upsertModelRow d.models provider r
  let rowcount : Nat := 1
  ({ d with models := models' },
    acc.2.1 + 1, if rowcount ≠ 0 then acc.2.2 + 1 else acc.2.2)

/-- OpenRouter `save_models` (`fetch_models_openrouter.py`, lines
151-197): upsert each record, count `processed` and `inserted` from
`cursor.rowcount` (always 1, as for the Hugging Face upsert), then
commit.  No `sync_log` row is written on this path. -/
def save_models (db : DBState) (provider : PyStr) (records : List ModelRecord) :
    DBState × Nat × Nat :=
  records.foldl (saveStep provider) (db, 0, 0)

/-- OpenRouter `upsert_provider`: keeps a stored `avatar_url` when the
new one is NULL (`COALESCE`), replaces `display_name` (falling back to
the provider id when falsy), and never touches the avatar blob/mime
columns. -/
def upsert_provider (providers : List ProvidersRow) (provider_id : PyStr)
    (display_name : Option PyStr) (avatar_url : Option PyStr) : List ProvidersRow :=
  let dn : PyStr := match display_name with
    | some d => if d.isEmpty then provider_id else d
    | none => provider_id
  match findProvider providers provider_id with
  | some _ =>
    providers.map (fun p =>
      if p.provider_id == provider_id then
        { p with
          display_name := some dn
          avatar_url := match avatar_url with | some u => some u | none => p.avatar_url }
      else p)
  | none => providers ++ [⟨provider_id, some dn, avatar_url, none, none⟩]

/-- Accumulation semantics of the OpenRouter driver's `results` dict:
`existing = results.get(k, (0, 0)); results[k] = existing + delta`. -/
def addResult (rs : List (PyStr × Nat × Nat)) (k : PyStr) (p i : Nat) :
    List (PyStr × Nat × Nat) :=
  match rs.find? (fun x => x.1 == k) with
  | some e => rs.map (fun x => if x.1 == k then (k, e.2.1 + p, e.2.2 + i) else x)
  | none => rs ++ [(k, p, i)]

/-- Loop body of the OpenRouter driver: build the record, derive the
provider key and display name, skip the item when a nonempty allowlist
does not contain the key, otherwise upsert the provider row, save the
record, and accumulate per-provider totals. -/
def processItem (providers_filter : List PyStr) (now : PyDateTime)
    (acc : DBState × List (PyStr × Nat × Nat)) (item : RawItem) :
    DBState × List (PyStr × Nat × Nat) :=
  let record := to_record now item
  let provider_key := record.provider
  let nameOr : PyStr := match item.name with
    | some s => if s.isEmpty then provider_key else s
    | none => provider_key
  let pd0 := pyStrip (nameOr.takeWhile (fun c => c != 58))
  let pd1 := if pd0.isEmpty && !record.model_id.isEmpty && record.model_id.contains 47
    then pyStrip (record.model_id.takeWhile (fun c => c != 47)) else pd0
  let provider_display := if pd1.isEmpty then provider_key else pd1
  if !providers_filter.isEmpty && !(providers_filter.contains provider_key) then acc
  else
    let dbA := { acc.1 with
      providers := upsert_provider acc.1.providers provider_key (some provider_display) none }
    let out := save_models dbA provider_key [record]
    (out.1, addResult acc.2 provider_key out.2.1 out.2.2)

/-- OpenRouter `fetch_and_store` (`fetch_models_openrouter.py`, lines
212-235).  `catalog` is the payload `fetch_remote_models` returned —
the remote fetch happens before the allowlist is consulted, and an
empty allowlist disables filtering instead of aborting.  `now` models
the wall clock. -/
def fetch_and_store (providersEnvOR : Option PyStr) (catalog : List RawItem)
    (limit : Option Int) (now : PyDateTime) (db : DBState) :
    DBState × List (PyStr × Nat × Nat) :=
  let providers_filter := get_providers providersEnvOR
  let raw_models := match limit with
    | some l => if l > 0 then catalog.take l.toNat else catalog
    | none => catalog
  raw_models.foldl (processItem providers_filter now) (db, [])

end OpenRouter

/-- Result of one upstream HTTP GET for an avatar: network failure, or a
response with status, body bytes and content type. -/
inductive Upstream where
  | failed : Upstream
  | resp (status : Nat) (body : List Nat) (content_type : Option PyStr) : Upstream
deriving DecidableEq

/-- Hugging Face `download_provider_avatar`: returns `(None, None)` when
there is no URL, the request fails, the response is not OK, or the body
exceeds `AVATAR_MAX_BYTES`; otherwise the bytes and the primary
content-type token (before `;`, stripped). -/
def HF.download_provider_avatar (maxBytes : Nat) (avatar_url : Option PyStr)
    (upstream : Upstream) : Option (List Nat) × Option PyStr :=
  match avatar_url with
  | none => (none, none)
  | some url =>
    if url.isEmpty then (none, none)
    else
      match upstream with
      | .failed => (none, none)
      | .resp status body content_type =>
        if !(status < 400) then (none, none)
        else if maxBytes < body.length then (none, none)
        else
          (some body,
            match content_type with
            | some ct => some (pyStrip (ct.takeWhile (fun c => c != 59)))
            | none => none)

/-- Descending `created_at` text order (`ORDER BY created_at DESC`). -/
def createdDesc (a b : ModelsRow) : Prop := strLe b.created_at a.created_at = true

/-- Ascending `created_at` text order (`ORDER BY created_at ASC`). -/
def createdAsc (a b : ModelsRow) : Prop := strLe a.created_at b.created_at = true

instance : DecidableRel createdDesc :=
  fun a b => inferInstanceAs (Decidable (strLe b.created_at a.created_at = true))

instance : DecidableRel createdAsc :=
  fun a b => inferInstanceAs (Decidable (strLe a.created_at b.created_at = true))

instance : IsTotal ModelsRow createdDesc :=
  ⟨fun a b => strLe_total b.created_at a.created_at⟩

instance : IsTotal ModelsRow createdAsc :=
  ⟨fun a b => strLe_total a.created_at b.created_at⟩

instance : IsTrans ModelsRow createdDesc :=
  ⟨fun _ b _ h1 h2 => strLe_trans _ b.created_at _ h2 h1⟩

instance : IsTrans ModelsRow createdAsc :=
  ⟨fun _ b _ h1 h2 => strLe_trans _ b.created_at _ h1 h2⟩

namespace Backend

/-- Backend `_parse_tags` (`backend/main.py`, lines 376-385): empty or
NULL gives `[]`; stripped text starting with `[` is parsed as JSON
(falling through on a decode error); anything else is comma-split into
stripped nonempty tags. -/
def parse_tags (raw : Option PyStr) : List PyStr :=
  match raw with
  | none => []
  | some r0 =>
    if r0.isEmpty then []
    else
      let r := pyStrip r0
      let viaJson : Option (List PyStr) :=
        if startsWithL (py "[") r then loadsStrArray r else none
      match viaJson with
      | some ts => ts
      | none =>
        (splitOnCp 44 r).filterMap
          (fun t => let q := pyStrip t; if q.isEmpty then none else some q)

/-- The `Model` response shape of the read API.  `tags` is the parsed
list. -/
structure APIModel where
  model_id : PyStr
  provider : PyStr
  model_name : PyStr
  description : PyStr
  tags : List PyStr
  created_at : PyStr
  downloads : Option Int
  likes : Option Int
  model_card_url : PyStr
deriving DecidableEq

/-- Projection of a stored row to the API `Model` shape. -/
def toAPIModel (row : ModelsRow) : APIModel :=
  { model_id := row.model_id
    provider := row.provider
    model_name := row.model_name
    description := row.description
    tags := parse_tags (some row.tags)
    created_at := row.created_at
    downloads := row.downloads
    likes := row.likes
    model_card_url := row.model_card_url }

/-- The `ModelList` response shape. -/
structure ModelList where
  items : List APIModel
  total : Nat
  page : Nat
  page_size : Nat
deriving DecidableEq

/-- The conjunctive WHERE clause of `list_models`: provider equality,
`tags ILIKE %tag%`, `(model_name ILIKE %s OR description ILIKE %s)`.
Falsy (absent or empty) parameters add no filter.  `ILIKE` with a
`%needle%` pattern is modelled as case-insensitive substring search
(the needles the API builds are used verbatim, without LIKE
metacharacter semantics inside the needle). -/
def matchesFilter (provider tag search : Option PyStr) (row : ModelsRow) : Bool :=
  (match provider with
    | some p => if p.isEmpty then true else row.provider == p
    | none => true)
  && (match tag with
    | some t => if t.isEmpty then true else containsSub (pyLower t) (pyLower row.tags)
    | none => true)
  && (match search with
    | some q =>
      if q.isEmpty then true
      else containsSub (pyLower q) (pyLower row.model_name)
        || containsSub (pyLower q) (pyLower row.description)
    | none => true)

/-- Backend `list_models` (`backend/main.py`, lines 99-156): count the
matching rows, then return one page of them ordered by `created_at`
descending with `LIMIT page_size OFFSET (page-1)*page_size`. -/
def list_models (page page_size : Nat) (provider tag search : Option PyStr)
    (models : List ModelsRow) : ModelList :=
  let offset := (page - 1) * page_size
  let matched := models.filter (matchesFilter provider tag search)
  let total := matched.length
  let sorted := List.insertionSort createdDesc matched
  let rows := (sorted.drop offset).take page_size
  { items := rows.map toAPIModel, total := total, page := page, page_size := page_size }

/-- Backend `get_model`: exact `model_id` lookup; `none` models the 404
path. -/
def get_model (model_id : PyStr) (models : List ModelsRow) : Option APIModel :=
  (findModel models model_id).map toAPIModel

/-- Backend `_calculate_timeline_window` (`backend/main.py`, lines
355-374).  `now` models `datetime.utcnow()`. -/
def calculate_timeline_window (preset : PyStr) (year : Option Nat) (now : PyDateTime) :
    PyDateTime × PyDateTime × PyStr :=
  match year with
  | some y => (⟨y, 1, 1, 0, 0, 0, 0⟩, ⟨y, 12, 31, 23, 59, 59, 0⟩, natToDec y ++ py "年")
  | none =>
    let p := if preset.isEmpty then py "30d" else preset
    if p == py "6m" then (subDays now 182, now, py "近半年")
    else if p == py "1y" then (⟨now.year, 1, 1, 0, 0, 0, 0⟩, now, py "今年")
    else (subDays now 30, now, py "近30天")

/-- The WHERE clause of the timeline query: `m.created_at BETWEEN start
AND end` as text comparison (both bounds are `isoformat()` strings),
plus optional provider equality and `model_name ILIKE`. -/
def timelineMatch (startStr endStr : PyStr) (provider model_name : Option PyStr)
    (row : ModelsRow) : Bool :=
  (strLe startStr row.created_at && strLe row.created_at endStr)
  && (match provider with
    | some p => if p.isEmpty then true else row.provider == p
    | none => true)
  && (match model_name with
    | some q =>
      if q.isEmpty then true else containsSub (pyLower q) (pyLower row.model_name)
    | none => true)

/-- The `TimelineModel` response shape. -/
structure TimelineItem where
  model_id : PyStr
  provider : PyStr
  model_name : PyStr
  description : PyStr
  created_at : PyStr
  model_card_url : PyStr
  tags : List PyStr
  avatar_url : Option PyStr
deriving DecidableEq

/-- The `TimelineResponse` shape; `stop` is the response's `end` field
(`end` is a Lean keyword). -/
structure TimelineResponse where
  items : List TimelineItem
  total : Nat
  page : Nat
  page_size : Nat
  start : PyStr
  stop : PyStr
  preset : PyStr
  label : PyStr
deriving DecidableEq

/-- Backend `timeline_models` (`backend/main.py`, lines 186-271). -/
def timeline_models (preset : PyStr) (year : Option Nat) (page page_size : Nat)
    (sort : PyStr) (provider model_name : Option PyStr) (now : PyDateTime)
    (models : List ModelsRow) (providers : List ProvidersRow) : TimelineResponse :=
  let w := calculate_timeline_window preset year now
  let startStr := isoformat w.1
  let endStr := isoformat w.2.1
  let offset := (page - 1) * page_size
  let matched := models.filter (timelineMatch startStr endStr provider model_name)
  let total := matched.length
  let sorted := if sort == py "asc" then List.insertionSort createdAsc matched
    else List.insertionSort createdDesc matched
  let rows := (sorted.drop offset).take page_size
  { items := rows.map (fun r =>
      { model_id := r.model_id
        provider := r.provider
        model_name := r.model_name
        description := r.description
        created_at := r.created_at
        model_card_url := r.model_card_url
        tags := parse_tags (some r.tags)
        avatar_url := (findProvider providers r.provider).bind (fun p => p.avatar_url) })
    total := total
    page := page
    page_size := page_size
    start := startStr
    stop := endStr
    preset := match year with | some _ => py "year" | none => preset
    label := w.2.2 }

/-- The HTTP outcome of the avatar endpoint: an `HTTPException` or an
image response. -/
inductive AvatarResult where
  | httpError (status : Nat) (detail : PyStr) : AvatarResult
  | image (body : List Nat) (media_type : PyStr) : AvatarResult
deriving DecidableEq

/-- Python truthiness of the `avatar_blob` column (`if avatar_blob:`
rejects both NULL and zero-length bytes). -/
def blobTruthy : Option (List Nat) → Bool
  | some b => !b.isEmpty
  | none => false

/-- The cache-miss tail of `provider_avatar`: consult the stored
`avatar_url`, perform the single upstream fetch, map upstream failures
to 404/502/passthrough, and persist the payload to the blob cache only
when its byte length is within `maxBytes` (`AVATAR_MAX_BYTES`).  The
third component counts upstream fetches performed. -/
def avatarFetchPath (maxBytes : Nat) (providers : List ProvidersRow)
    (provider_id : PyStr) (row : ProvidersRow) (upstream : Upstream) :
    AvatarResult × List ProvidersRow × Nat :=
  match row.avatar_url with
  | none => (.httpError 404 (py "Avatar unavailable"), providers, 0)
  | some url =>
    if url.isEmpty then (.httpError 404 (py "Avatar unavailable"), providers, 0)
    else
      match upstream with
      | .failed => (.httpError 502 (py "Failed to fetch avatar"), providers, 1)
      | .resp status body content_type =>
        if status = 404 then (.httpError 404 (py "Avatar not found"), providers, 1)
        else if 500 ≤ status then (.httpError 502 (py "Avatar provider error"), providers, 1)
        else if 400 ≤ status then (.httpError status (py "Avatar fetch error"), providers, 1)
        else
          let ctype := match content_type with | some c => c | none => py "image/png"
          if body.length ≤ maxBytes then
            (AvatarResult.image body ctype,
              providers.map (fun p =>
                if p.provider_id == provider_id then
                  { p with
                    avatar_blob := some body
                    avatar_mime := some ctype }
                else p), 1)
          else (AvatarResult.image body ctype, providers, 1)

/-- Backend `provider_avatar` (`backend/main.py`, lines 289-352).
A truthy cached blob is served directly with no upstream fetch;
otherwise the fetch path runs.  The successful cache write is modelled
(the rollback-on-write-failure branch still serves the same bytes). -/
def provider_avatar (maxBytes : Nat) (providers : List ProvidersRow)
    (provider_id : PyStr) (upstream : Upstream) :
    AvatarResult × List ProvidersRow × Nat :=
  match findProvider providers provider_id with
  | none => (.httpError 404 (py "Provider not found"), providers, 0)
  | some row =>
    let avatar_mime : PyStr := match row.avatar_mime with
      | some m => if m.isEmpty then py "image/png" else m
      | none => py "image/png"
    match row.avatar_blob with
    | some b =>
      if !b.isEmpty then (.image b avatar_mime, providers, 0)
      else avatarFetchPath maxBytes providers provider_id row upstream
    | none => avatarFetchPath maxBytes providers provider_id row upstream

end Backend

theorem findModel_key (rows : List ModelsRow) (mid : PyStr) (old : ModelsRow)
    (h : findModel rows mid = some old) : old.model_id = mid := by
  have hp := List.find?_some h
  exact eq_of_beq hp

theorem findModel_cons (x : ModelsRow) (xs : List ModelsRow) (mid : PyStr) :
    findModel (x :: xs) mid
      = if x.model_id == mid then some x else findModel xs mid := by
  cases hx : x.model_id == mid <;> simp [findModel, List.find?, hx]

theorem findModel_replace (rows : List ModelsRow) (mid : PyStr) (new : ModelsRow)
    (hnew : new.model_id = mid) :
    ∀ old, findModel rows mid = some old →
      findModel (HF.replaceModel rows mid new) mid = some new := by
  induction rows with
  | nil => intro old h; simp [findModel] at h
  | cons x xs ih =>
    intro old h
    rw [findModel_cons] at h
    by_cases hx : (x.model_id == mid) = true
    · unfold HF.replaceModel
      rw [List.map_cons, if_pos hx, findModel_cons, if_pos (by simp [hnew])]
    · unfold HF.replaceModel
      rw [List.map_cons, if_neg hx, findModel_cons, if_neg hx]
      rw [if_neg hx] at h
      exact ih old h

theorem findModel_append (rows extra : List ModelsRow) (mid : PyStr)
    (h : findModel rows mid = none) :
    findModel (rows ++ extra) mid = findModel extra mid := by
  induction rows with
  | nil => rfl
  | cons x xs ih =>
    rw [findModel_cons] at h
    by_cases hx : (x.model_id == mid) = true
    · rw [if_pos hx] at h
      exact absurd h (by simp)
    · rw [if_neg hx] at h
      rw [List.cons_append, findModel_cons, if_neg hx]
      exact ih h

/-- After a Hugging Face upsert the row stored under the record's key
carries the freshly dumped tags text. -/
theorem findModel_upsert_hf_tags (rows : List ModelsRow) (r : HF.ModelRecord) :
    ∃ row, findModel (HF.upsertModelRow rows r) r.model_id = some row
      ∧ row.tags = dumpsTags r.tags := by
  unfold HF.upsertModelRow
  cases h : findModel rows r.model_id with
  | some old =>
    refine ⟨HF.mergedRow old r, ?_, rfl⟩
    exact findModel_replace rows r.model_id (HF.mergedRow old r)
      (by simp [HF.mergedRow, findModel_key rows r.model_id old h]) old h
  | none =>
    refine ⟨HF.freshRow r, ?_, rfl⟩
    rw [findModel_append _ _ _ h, findModel_cons, if_pos (by simp [HF.freshRow])]

theorem hf_fold_sync_log (records : List HF.ModelRecord) :
    ∀ acc : DBState × Nat × Nat,
      ((records.foldl HF.saveStep acc).1).sync_log = acc.1.sync_log := by
  induction records with
  | nil => intro acc; rfl
  | cons r rs ih => intro acc; rw [List.foldl_cons, ih]; rfl

theorem or_fold_sync_log (p : PyStr) (records : List OpenRouter.ModelRecord) :
    ∀ acc : DBState × Nat × Nat,
      ((records.foldl (OpenRouter.saveStep p) acc).1).sync_log = acc.1.sync_log := by
  induction records with
  | nil => intro acc; rfl
  | cons r rs ih => intro acc; rw [List.foldl_cons, ih]; rfl

/-- The empty database, as after `create_schema` on a fresh instance. -/
def emptyDB : DBState := ⟨[], [], [], []⟩

/-- The first record of `test_fetch_and_store_inserts`
(`tests/test_fetch_models.py`): `meta-llama/Llama-1`, "Model one". -/
def recLlama1 : HF.ModelRecord :=
  { model_id := py "meta-llama/Llama-1"
    provider := py "meta-llama"
    model_name := py "Llama-1"
    description := py "Model one"
    tags := [py "text-generation"]
    created_at := py "2024-01-01 00:00:00"
    downloads := some 123
    likes := some 45
    model_card_url := py "https://huggingface.co/meta-llama/Llama-1"
    inserted_at := py "2024-06-15 12:00:00"
    is_open_source := none
    price := none
    opencompass_rank := none
    huggingface_rank := none }

/-- The second test record: `meta-llama/Llama-2`, "Model two". -/
def recLlama2 : HF.ModelRecord :=
  { recLlama1 with
    model_id := py "meta-llama/Llama-2"
    model_name := py "Llama-2"
    description := py "Model two"
    model_card_url := py "https://huggingface.co/meta-llama/Llama-2" }

/-- The third test record: `meta-llama/Llama-1` again, "Duplicate". -/
def recLlama1Dup : HF.ModelRecord :=
  { recLlama1 with description := py "Duplicate" }

/-- The test batch of `test_fetch_and_store_inserts`: three records,
two sharing `model_id`, on an empty table. -/
def c2run : DBState × Nat × Nat :=
  HF.save_models emptyDB (py "meta-llama") [recLlama1, recLlama2, recLlama1Dup]
    (py "2024-06-15T12:00:00+00:00") (py "2024-06-15T12:00:05+00:00")

/-- C1: re-ingesting a record under an already-present `model_id`, on
both the Hugging Face and the OpenRouter upsert, keeps the stored
enrichment values (`price`, `opencompass_rank`, `huggingface_rank`)
whenever the newly fetched value is null — in particular a stored
non-null price survives a null-price fetch — while `model_name`,
`description`, `tags` and `created_at` are always replaced by the
newly fetched values. -/
theorem upsert_merge_non_destructive :
    (∀ (rows : List ModelsRow) (old : ModelsRow) (r : HF.ModelRecord),
      findModel rows r.model_id = some old →
      ∃ new, findModel (HF.upsertModelRow rows r) r.model_id = some new
        ∧ (r.price = none → new.price = old.price)
        ∧ (∀ v, old.price = some v → r.price = none → new.price = some v)
        ∧ (r.opencompass_rank = none → new.opencompass_rank = old.opencompass_rank)
        ∧ (r.huggingface_rank = none → new.huggingface_rank = old.huggingface_rank)
        ∧ new.model_name = r.model_name ∧ new.description = r.description
        ∧ new.tags = dumpsTags r.tags ∧ new.created_at = r.created_at)
    ∧ (∀ (rows : List ModelsRow) (old : ModelsRow) (prov : PyStr)
        (r : OpenRouter.ModelRecord),
      findModel rows r.model_id = some old →
      ∃ new, findModel (OpenRouter.upsertModelRow rows prov r) r.model_id = some new
        ∧ (r.price = none → new.price = old.price)
        ∧ (∀ v, old.price = some v → r.price = none → new.price = some v)
        ∧ (r.opencompass_rank = none → new.opencompass_rank = old.opencompass_rank)
        ∧ (r.huggingface_rank = none → new.huggingface_rank = old.huggingface_rank)
        ∧ new.model_name = r.model_name ∧ new.description = r.description
        ∧ new.tags = dumpsTags [] ∧ new.created_at = r.created_at) := by
  constructor
  · intro rows old r h
    have hkey : old.model_id = r.model_id := findModel_key rows r.model_id old h
    refine ⟨HF.mergedRow old r, ?_, ?_, ?_, ?_, ?_, rfl, rfl, rfl, rfl⟩
    · unfold HF.upsertModelRow
      rw [h]
      exact findModel_replace rows r.model_id (HF.mergedRow old r)
        (by simp [HF.mergedRow, hkey]) old h
    · intro hp; simp [HF.mergedRow, hp]
    · intro v hv hp; simp [HF.mergedRow, hp, hv]
    · intro hp; simp [HF.mergedRow, hp]
    · intro hp; simp [HF.mergedRow, hp]
  · intro rows old prov r h
    have hkey : old.model_id = r.model_id := findModel_key rows r.model_id old h
    refine ⟨OpenRouter.mergedRow old prov r, ?_, ?_, ?_, ?_, ?_, rfl, rfl, rfl, rfl⟩
    · unfold OpenRouter.upsertModelRow
      rw [h]
      exact findModel_replace rows r.model_id (OpenRouter.mergedRow old prov r)
        (by simp [OpenRouter.mergedRow, hkey]) old h
    · intro hp; simp [OpenRouter.mergedRow, hp]
    · intro v hv hp; simp [OpenRouter.mergedRow, hp, hv]
    · intro hp; simp [OpenRouter.mergedRow, hp]
    · intro hp; simp [OpenRouter.mergedRow, hp]

/-- A stored row with a non-null price and enrichment ranks. -/
def storedEnrichedRow : ModelsRow :=
  { model_id := py "meta-llama/Llama-1"
    provider := py "meta-llama"
    model_name := py "Llama-1"
    description := py "old description"
    tags := dumpsTags [py "old-tag"]
    created_at := py "2023-01-01 00:00:00"
    downloads := some 1
    likes := some 2
    model_card_url := py "https://huggingface.co/meta-llama/Llama-1"
    inserted_at := py "2023-01-02 00:00:00"
    is_open_source := some true
    price := some (py "0.002")
    opencompass_rank := some 5
    huggingface_rank := some 7 }

/-- Witness for C1: re-ingesting `recLlama1` (whose `price` and ranks
are null) over `storedEnrichedRow` keeps the stored enrichment values
and replaces the descriptive fields. -/
theorem upsert_merge_non_destructive_witness :
    ∃ new, findModel (HF.upsertModelRow [storedEnrichedRow] recLlama1)
        recLlama1.model_id = some new
      ∧ (recLlama1.price = none → new.price = storedEnrichedRow.price)
      ∧ (∀ v, storedEnrichedRow.price = some v → recLlama1.price = none →
          new.price = some v)
      ∧ (recLlama1.opencompass_rank = none →
          new.opencompass_rank = storedEnrichedRow.opencompass_rank)
      ∧ (recLlama1.huggingface_rank = none →
          new.huggingface_rank = storedEnrichedRow.huggingface_rank)
      ∧ new.model_name = recLlama1.model_name
      ∧ new.description = recLlama1.description
      ∧ new.tags = dumpsTags recLlama1.tags
      ∧ new.created_at = recLlama1.created_at :=
  upsert_merge_non_destructive.1 [storedEnrichedRow] storedEnrichedRow recLlama1
    (by decide)

/-- C2 (code evaluated at the failing input of the repository's own
test `test_fetch_and_store_inserts`): on an empty table, the batch
`[Llama-1, Llama-2, Llama-1-duplicate]` yields `processed = 3` but
`inserted = 3`, not the `(3, 2)` the test asserts — `ON CONFLICT
(model_id) DO UPDATE` reports the conflicting third record as an
affected row, so the duplicate is counted as inserted.  The table
itself does end up with 2 rows, and the single `sync_log` row records
`(3, 3)`. -/
theorem hf_insert_count_duplicate_batch_eval :
    c2run.2.1 = 3 ∧ c2run.2.2 = 3 ∧ ¬ c2run.2.2 = 2
      ∧ c2run.1.models.length = 2
      ∧ c2run.1.sync_log = [⟨py "meta-llama", py "2024-06-15T12:00:00+00:00",
          py "2024-06-15T12:00:05+00:00", py "success", 3, 3, none⟩] := by
  decide

/-- C3 counterexample: an OpenRouter `save_models` run that processes
one record appends no `sync_log` row at all (the claim demands exactly
one row per run for this path too). -/
theorem openrouter_save_models_no_sync_log :
    (OpenRouter.save_models emptyDB (py "openai")
        [OpenRouter.to_record ⟨2024, 6, 15, 12, 0, 0, 0⟩
          { id := some (py "openai/gpt-4"), name := some (py "OpenAI: GPT-4"),
            description := some (py "GPT-4 model"), created := some 1700000000,
            pricing := some [(py "prompt", py "0.00003")] }]).1.sync_log = []
      ∧ (OpenRouter.save_models emptyDB (py "openai")
        [OpenRouter.to_record ⟨2024, 6, 15, 12, 0, 0, 0⟩
          { id := some (py "openai/gpt-4"), name := some (py "OpenAI: GPT-4"),
            description := some (py "GPT-4 model"), created := some 1700000000,
            pricing := some [(py "prompt", py "0.00003")] }]).2.1 = 1 := by
  constructor
  · rw [show (OpenRouter.save_models emptyDB (py "openai") _).1.sync_log
        = emptyDB.sync_log from or_fold_sync_log _ _ _]
    rfl
  · decide

/-- C3 amended: the Hugging Face `save_models` appends exactly one
`sync_log` row per run (recording the run's `processed` and `inserted`
counts) and never updates or deletes existing rows — the new log is the
old log plus one appended entry; the OpenRouter `save_models`, by
contrast, appends no `sync_log` row at all. -/
theorem sync_log_append_only_amended :
    (∀ (db : DBState) (provider : PyStr) (records : List HF.ModelRecord)
        (t0 t1 : PyStr),
      (HF.save_models db provider records t0 t1).1.sync_log
        = db.sync_log ++ [⟨provider, t0, t1, py "success",
            (HF.save_models db provider records t0 t1).2.1,
            (HF.save_models db provider records t0 t1).2.2, none⟩])
    ∧ (∀ (db : DBState) (provider : PyStr) (records : List OpenRouter.ModelRecord),
      (OpenRouter.save_models db provider records).1.sync_log = db.sync_log) := by
  constructor
  · intro db provider records t0 t1
    show ((List.foldl HF.saveStep (db, 0, 0) records).1.sync_log ++ _) = _
    rw [hf_fold_sync_log]
    rfl
  · intro db provider records
    exact or_fold_sync_log provider records (db, 0, 0)

/-- A provider row holding a cached avatar blob. -/
def cachedProviderRow : ProvidersRow :=
  { provider_id := py "meta-llama"
    display_name := some (py "Meta Llama")
    avatar_url := some (py "https://example.com/a.png")
    avatar_blob := some [137, 80, 78, 71]
    avatar_mime := some (py "image/png") }

/-- C4 counterexample: the blob is not write-once across the system —
the Hugging Face `upsert_provider` overwrites `avatar_blob` with the
freshly downloaded content unconditionally, so a re-sync whose avatar
download yields `None` (failure or oversize) erases the cached blob,
and the next avatar request performs an upstream fetch again. -/
theorem hf_upsert_provider_clears_avatar_blob :
    Backend.blobTruthy cachedProviderRow.avatar_blob = true
      ∧ HF.upsert_provider [cachedProviderRow] (py "meta-llama")
          (some (py "https://example.com/a.png")) (some (py "Meta Llama")) none none
        = [{ cachedProviderRow with
            avatar_blob := none
            avatar_mime := none }]
      ∧ (Backend.provider_avatar 524288
          (HF.upsert_provider [cachedProviderRow] (py "meta-llama")
            (some (py "https://example.com/a.png")) (some (py "Meta Llama")) none none)
          (py "meta-llama") (Upstream.resp 200 [9, 9] (some (py "image/png")))).2.2 = 1 := by
  decide

theorem findProvider_cons (x : ProvidersRow) (xs : List ProvidersRow) (pid : PyStr) :
    findProvider (x :: xs) pid
      = if x.provider_id == pid then some x else findProvider xs pid := by
  cases hx : x.provider_id == pid <;> simp [findProvider, List.find?, hx]

theorem findProvider_update (providers : List ProvidersRow) (pid : PyStr)
    (blob : List Nat) (mime : PyStr) :
    ∀ row, findProvider providers pid = some row →
      findProvider (providers.map (fun p =>
        if p.provider_id == pid then
          { p with
            avatar_blob := some blob
            avatar_mime := some mime }
        else p)) pid
      = some { row with
          avatar_blob := some blob
          avatar_mime := some mime } := by
  induction providers with
  | nil => intro row h; simp [findProvider] at h
  | cons x xs ih =>
    intro row h
    rw [findProvider_cons] at h
    by_cases hx : (x.provider_id == pid) = true
    · rw [if_pos hx] at h
      cases h
      rw [List.map_cons, if_pos hx, findProvider_cons, if_pos hx]
    · rw [if_neg hx] at h
      rw [List.map_cons, if_neg hx, findProvider_cons, if_neg hx]
      exact ih row h

/-- The cache-miss fetch path on a sub-400 upstream response: the body
is served, exactly one fetch happens, and the payload is cached only
when it is within the byte cap. -/
theorem avatarFetchPath_ok (maxBytes : Nat) (providers : List ProvidersRow)
    (pid : PyStr) (row : ProvidersRow) (url : PyStr) (status : Nat)
    (body : List Nat) (ct : Option PyStr)
    (hurl : row.avatar_url = some url) (hne : url ≠ []) (hst : status < 400) :
    Backend.avatarFetchPath maxBytes providers pid row (Upstream.resp status body ct)
      = (Backend.AvatarResult.image body
          (match ct with | some c => c | none => py "image/png"),
        (if body.length ≤ maxBytes then
          providers.map (fun p =>
            if p.provider_id == pid then
              { p with
                avatar_blob := some body
                avatar_mime := some (match ct with | some c => c | none => py "image/png") }
            else p)
        else providers), 1) := by
  unfold Backend.avatarFetchPath
  rw [hurl]
  have h1 : url.isEmpty = false := by
    cases url
    · exact absurd rfl hne
    · rfl
  have h404 : ¬ status = 404 := by omega
  have h500 : ¬ 500 ≤ status := by omega
  have h400 : ¬ 400 ≤ status := by omega
  simp only [h1, Bool.false_eq_true, if_false, if_neg h404, if_neg h500, if_neg h400]
  by_cases hlen : body.length ≤ maxBytes
  · simp only [if_pos hlen]
  · simp only [if_neg hlen]

/-- C4 amended: the avatar *endpoint* is write-once-then-reusable —
once a (truthy) blob is stored, every request is served from storage
with no upstream fetch and no state change; on a cache miss with a
known URL and an OK upstream response the payload is served, exactly
one fetch happens, the payload is persisted only when its byte length
is within the configured cap, and an oversized payload is served once
but leaves storage unchanged.  (The blob is, however, not preserved by
every operation of the system: the Hugging Face provider upsert
overwrites it with the fresh download, which may be null — see the
counterexample.) -/
theorem avatar_cache_amended :
    (∀ (maxBytes : Nat) (providers : List ProvidersRow) (pid : PyStr)
        (upstream : Upstream) (row : ProvidersRow) (b : List Nat),
      findProvider providers pid = some row →
      row.avatar_blob = some b → b ≠ [] →
      Backend.provider_avatar maxBytes providers pid upstream
        = (Backend.AvatarResult.image b
            (match row.avatar_mime with
              | some m => if m.isEmpty then py "image/png" else m
              | none => py "image/png"), providers, 0))
    ∧ (∀ (maxBytes : Nat) (providers : List ProvidersRow) (pid : PyStr)
        (row : ProvidersRow) (url : PyStr) (status : Nat) (body : List Nat)
        (ct : Option PyStr),
      findProvider providers pid = some row →
      Backend.blobTruthy row.avatar_blob = false →
      row.avatar_url = some url → url ≠ [] → status < 400 →
      (Backend.provider_avatar maxBytes providers pid (Upstream.resp status body ct)).1
          = Backend.AvatarResult.image body
              (match ct with | some c => c | none => py "image/png")
        ∧ (Backend.provider_avatar maxBytes providers pid
            (Upstream.resp status body ct)).2.2 = 1
        ∧ (body.length ≤ maxBytes →
            ∃ row', findProvider (Backend.provider_avatar maxBytes providers pid
                (Upstream.resp status body ct)).2.1 pid = some row'
              ∧ row'.avatar_blob = some body
              ∧ row'.avatar_mime
                  = some (match ct with | some c => c | none => py "image/png"))
        ∧ (maxBytes < body.length →
            (Backend.provider_avatar maxBytes providers pid
              (Upstream.resp status body ct)).2.1 = providers)) := by
  constructor
  · intro maxBytes providers pid upstream row b hfind hb hne
    have hbe : b.isEmpty = false := by
      cases b
      · exact absurd rfl hne
      · rfl
    simp [Backend.provider_avatar, hfind, hb, hbe]
  · intro maxBytes providers pid row url status body ct hfind hbt hurl hne hst
    have hpath : Backend.provider_avatar maxBytes providers pid
        (Upstream.resp status body ct)
        = Backend.avatarFetchPath maxBytes providers pid row
            (Upstream.resp status body ct) := by
      cases hb : row.avatar_blob with
      | none => simp [Backend.provider_avatar, hfind, hb]
      | some b =>
        have hbnil : b = [] := by
          unfold Backend.blobTruthy at hbt
          rw [hb] at hbt
          simpa using hbt
        simp [Backend.provider_avatar, hfind, hb, hbnil]
    rw [hpath, avatarFetchPath_ok maxBytes providers pid row url status body ct hurl hne hst]
    rcases ct with _ | c
    · refine ⟨rfl, rfl, ?_, ?_⟩
      · intro hlen
        simp only [if_pos hlen]
        exact ⟨_, findProvider_update providers pid body _ row hfind, rfl, rfl⟩
      · intro hlen
        simp only [if_neg (by omega : ¬ body.length ≤ maxBytes)]
    · refine ⟨rfl, rfl, ?_, ?_⟩
      · intro hlen
        simp only [if_pos hlen]
        exact ⟨_, findProvider_update providers pid body _ row hfind, rfl, rfl⟩
      · intro hlen
        simp only [if_neg (by omega : ¬ body.length ≤ maxBytes)]

/-- A provider row with an avatar URL but no cached blob. -/
def uncachedProviderRow : ProvidersRow :=
  { provider_id := py "openai"
    display_name := some (py "OpenAI")
    avatar_url := some (py "https://example.com/openai.png")
    avatar_blob := none
    avatar_mime := none }

/-- Witness for C4 amended: a cached request is served with zero
fetches and no state change; an uncached request with a small OK
payload performs one fetch and persists the payload. -/
theorem avatar_cache_amended_witness :
    (Backend.provider_avatar 524288 [cachedProviderRow] (py "meta-llama")
        Upstream.failed
      = (Backend.AvatarResult.image [137, 80, 78, 71] (py "image/png"),
          [cachedProviderRow], 0))
    ∧ (Backend.provider_avatar 524288 [uncachedProviderRow] (py "openai")
        (Upstream.resp 200 [1, 2, 3] (some (py "image/jpeg")))).2.2 = 1 := by
  constructor
  · exact avatar_cache_amended.1 524288 [cachedProviderRow] (py "meta-llama")
      Upstream.failed cachedProviderRow [137, 80, 78, 71] (by decide) (by decide)
      (by decide)
  · exact (avatar_cache_amended.2 524288 [uncachedProviderRow] (py "openai")
      uncachedProviderRow (py "https://example.com/openai.png") 200 [1, 2, 3]
      (some (py "image/jpeg")) (by decide) (by decide) (by decide) (by decide)
      (by decide)).2.1

/-- Total of the `processed` components of the driver's `results`
dict. -/
def sumProcessed (rs : List (PyStr × Nat × Nat)) : Nat :=
  (rs.map (fun x => x.2.1)).sum

theorem addResult_sum : ∀ (rs : List (PyStr × Nat × Nat)) (k : PyStr) (p i : Nat),
    (rs.map (fun x => x.1)).Nodup →
    sumProcessed (OpenRouter.addResult rs k p i) = sumProcessed rs + p
  | [], k, p, i, _ => by
    simp [OpenRouter.addResult, sumProcessed, List.find?]
  | x :: xs, k, p, i, hnd => by
    unfold OpenRouter.addResult
    by_cases hx : (x.1 == k) = true
    · rw [show (x :: xs).find? (fun y => y.1 == k) = some x from by
        simp [List.find?, hx]]
      have hkx : x.1 = k := eq_of_beq hx
      have hmem : x.1 ∉ xs.map (fun z => z.1) := (List.nodup_cons.mp hnd).1
      have htail : ∀ y ∈ xs, (y.1 == k) = false := by
        intro y hy
        have hneq : ¬ y.1 = k := by
          intro he
          exact hmem (by rw [hkx, ← he]; exact List.mem_map_of_mem _ hy)
        simp [hneq]
      show sumProcessed ((x :: xs).map
          (fun y => if (y.1 == k) = true then (k, x.2.1 + p, x.2.2 + i) else y))
        = sumProcessed (x :: xs) + p
      rw [List.map_cons, if_pos hx]
      rw [show xs.map (fun y => if (y.1 == k) = true then (k, x.2.1 + p, x.2.2 + i) else y)
          = xs from by
        rw [show xs.map (fun y => if (y.1 == k) = true then (k, x.2.1 + p, x.2.2 + i) else y)
            = xs.map id from List.map_congr_left (fun y hy => by simp [htail y hy])]
        exact List.map_id xs]
      simp [sumProcessed]
      omega
    · have hx' : (x.1 == k) = false := by
        cases hb : (x.1 == k)
        · rfl
        · exact absurd hb hx
      rw [show (x :: xs).find? (fun y => y.1 == k) = xs.find? (fun y => y.1 == k) from by
        simp [List.find?, hx']]
      have hndtail : (xs.map (fun z => z.1)).Nodup := (List.nodup_cons.mp hnd).2
      have ihx := addResult_sum xs k p i hndtail
      unfold OpenRouter.addResult at ihx
      cases hfind : xs.find? (fun y => y.1 == k) with
      | none =>
        show sumProcessed ((x :: xs) ++ [(k, p, i)]) = sumProcessed (x :: xs) + p
        simp [sumProcessed]
        omega
      | some e =>
        rw [hfind] at ihx
        have ihx' : sumProcessed (xs.map
            (fun y => if (y.1 == k) = true then (k, e.2.1 + p, e.2.2 + i) else y))
          = sumProcessed xs + p := ihx
        show sumProcessed ((x :: xs).map
            (fun y => if (y.1 == k) = true then (k, e.2.1 + p, e.2.2 + i) else y))
          = sumProcessed (x :: xs) + p
        rw [List.map_cons, if_neg hx]
        simp only [sumProcessed, List.map_cons, List.sum_cons] at ihx' ⊢
        omega

theorem addResult_keys_nodup (rs : List (PyStr × Nat × Nat)) (k : PyStr) (p i : Nat)
    (hnd : (rs.map (fun x => x.1)).Nodup) :
    ((OpenRouter.addResult rs k p i).map (fun x => x.1)).Nodup := by
  unfold OpenRouter.addResult
  cases hfind : rs.find? (fun x => x.1 == k) with
  | none =>
    rw [List.map_append]
    have hfresh : k ∉ rs.map (fun x => x.1) := by
      intro hmem
      rcases List.mem_map.mp hmem with ⟨x, hx, hk⟩
      have hnone := List.find?_eq_none.mp hfind x hx
      simp [hk] at hnone
    simp [List.nodup_append, hnd, hfresh]
  | some e =>
    rw [show (rs.map (fun x => if (x.1 == k) = true then (k, e.2.1 + p, e.2.2 + i) else x)).map
          (fun x => x.1)
        = rs.map (fun x => x.1) from by
      rw [List.map_map]
      apply List.map_congr_left
      intro x hx
      by_cases hxk : (x.1 == k) = true
      · simp [hxk, (eq_of_beq hxk).symm]
      · have hne : ¬ x.1 = k := fun he => hxk (by simp [he])
        simp [hne]]
    exact hnd

/-- With an empty allowlist, every catalog item the OpenRouter driver
folds over contributes exactly one processed record to the totals. -/
theorem or_fold_sum (now : PyDateTime) :
    ∀ (catalog : List OpenRouter.RawItem) (db : DBState)
      (rs : List (PyStr × Nat × Nat)),
      (rs.map (fun x => x.1)).Nodup →
      sumProcessed ((catalog.foldl (OpenRouter.processItem [] now) (db, rs)).2)
        = sumProcessed rs + catalog.length
  | [], db, rs, _ => by simp
  | item :: items, db, rs, hnd => by
    rw [List.foldl_cons]
    rw [show OpenRouter.processItem [] now (db, rs) item
        = ((OpenRouter.processItem [] now (db, rs) item).1,
           OpenRouter.addResult rs (OpenRouter.to_record now item).provider 1 1) from rfl]
    rw [or_fold_sum now items _ _
      (addResult_keys_nodup rs (OpenRouter.to_record now item).provider 1 1 hnd)]
    rw [addResult_sum rs (OpenRouter.to_record now item).provider 1 1 hnd]
    simp
    omega

/-- A fixed wall-clock instant used by concrete runs. -/
def nowT : PyDateTime := ⟨2024, 6, 15, 12, 0, 0, 0⟩

/-- One concrete OpenRouter listing item. -/
def rawGpt : OpenRouter.RawItem :=
  { id := some (py "openai/gpt-4")
    name := some (py "OpenAI: GPT-4")
    description := some (py "GPT-4 model")
    created := some 1700000000
    pricing := some [(py "prompt", py "0.00003")] }

/-- C5 counterexample: with `PROVIDERS_OPENROUTER` unset the OpenRouter
driver does not fail fast — it runs to completion on the already
fetched catalog (the remote fetch happens before the allowlist check)
and ingests the item, upserting a `models` row and reporting totals. -/
theorem openrouter_empty_allowlist_ingests :
    (OpenRouter.fetch_and_store none [rawGpt] none nowT emptyDB).1.models.length = 1
      ∧ (OpenRouter.fetch_and_store none [rawGpt] none nowT emptyDB).2
          = [(py "openai", 1, 1)]
      ∧ findModel (OpenRouter.fetch_and_store none [rawGpt] none nowT emptyDB).1.models
          (py "openai/gpt-4") ≠ none := by
  decide

/-- C5 amended: the Hugging Face driver fails fast — with an empty or
unset `PROVIDERS` allowlist it returns the configuration error whatever
the network oracles would answer (so no network call and no ingestion
can occur); the OpenRouter driver instead never aborts: with an empty
allowlist it applies no filtering and every catalog item is processed
and counted (the catalog fetch itself happens before the allowlist is
read). -/
theorem allowlist_failfast_amended :
    (∀ (env : Option PyStr) (profileOf : PyStr → PyStr × Option PyStr)
        (avatarOf : Option PyStr → Option (List Nat) × Option PyStr)
        (listingOf : PyStr → List HF.ModelRecord) (timesOf : PyStr → PyStr × PyStr)
        (db : DBState),
      HF.get_providers env = [] →
      HF.fetch_and_store env profileOf avatarOf listingOf timesOf db
        = Except.error
            (py "PROVIDERS is not configured. Set it in environment or .env file."))
    ∧ (∀ (env : Option PyStr) (catalog : List OpenRouter.RawItem)
        (now : PyDateTime) (db : DBState),
      OpenRouter.get_providers env = [] →
      sumProcessed ((OpenRouter.fetch_and_store env catalog none now db).2)
        = catalog.length) := by
  constructor
  · intro env profileOf avatarOf listingOf timesOf db hp
    simp [HF.fetch_and_store, hp]
  · intro env catalog now db hp
    simp only [OpenRouter.fetch_and_store, hp]
    have h := or_fold_sum now catalog db [] (by simp)
    simpa [sumProcessed] using h

/-- Witness for C5 amended: the Hugging Face driver errors on an empty
allowlist regardless of the oracles, and the OpenRouter driver with an
unset allowlist processes the whole one-item catalog. -/
theorem allowlist_failfast_amended_witness :
    HF.fetch_and_store (some (py "")) (fun p => (p, none)) (fun _ => (none, none))
        (fun _ => []) (fun _ => (py "t0", py "t1")) emptyDB
      = Except.error
          (py "PROVIDERS is not configured. Set it in environment or .env file.")
    ∧ sumProcessed ((OpenRouter.fetch_and_store none [rawGpt] none nowT emptyDB).2)
        = 1 := by
  constructor
  · exact allowlist_failfast_amended.1 (some (py "")) _ _ _ _ emptyDB (by decide)
  · rw [allowlist_failfast_amended.2 none [rawGpt] nowT emptyDB (by decide)]
    rfl

theorem pyLower_isEmpty (s : PyStr) : (pyLower s).isEmpty = s.isEmpty := by
  cases s <;> rfl

/-- The `model_id` local of `to_record`: `raw.get("id") or ""`. -/
def OpenRouter.effectiveId (raw : OpenRouter.RawItem) : PyStr :=
  match raw.id with
  | some s => if s.isEmpty then [] else s
  | none => []

/-- The `name` local of `to_record`: `raw.get("name") or model_id`. -/
def OpenRouter.effectiveName (raw : OpenRouter.RawItem) : PyStr :=
  match raw.name with
  | some s => if s.isEmpty then OpenRouter.effectiveId raw else s
  | none => OpenRouter.effectiveId raw

theorem extractFromId_lowered (mid : Option PyStr) :
    pyLower (OpenRouter.extractFromId mid) = OpenRouter.extractFromId mid := by
  unfold OpenRouter.extractFromId
  cases mid with
  | none => decide
  | some m =>
    by_cases h : (!m.isEmpty && m.contains 47) = true
    · simp only [h, if_true]
      by_cases hq : (pyLower (pyStrip (m.takeWhile (fun c => c != 47)))).isEmpty
      · simp [hq]
        decide
      · simp [hq, pyLower_idem]
    · simp only [h, Bool.false_eq_true, if_false]
      decide

theorem extract_provider_lowered (name mid : Option PyStr) :
    pyLower (OpenRouter.extract_provider name mid) = OpenRouter.extract_provider name mid := by
  unfold OpenRouter.extract_provider
  cases name with
  | none => exact extractFromId_lowered mid
  | some n =>
    by_cases hn : n.isEmpty
    · simp only [hn, if_true]
      exact extractFromId_lowered mid
    · simp only [hn, Bool.false_eq_true, if_false]
      by_cases hp : (pyStrip (n.takeWhile (fun c => c != 58))).isEmpty
      · simp only [hp, Bool.not_true, Bool.false_eq_true, if_false]
        by_cases hs : (pyStrip n).isEmpty
        · simp only [hs, Bool.not_true, Bool.false_eq_true, if_false]
          cases mid with
          | none => decide
          | some m =>
            by_cases hm : (!m.isEmpty && m.contains 47) = true
            · simp only [hm, if_true]
              exact pyLower_idem _
            · simp only [hm, Bool.false_eq_true, if_false]
              decide
        · simp [hs, pyLower_idem]
      · simp [hp, pyLower_idem]

theorem to_record_provider_eq (now : PyDateTime) (raw : OpenRouter.RawItem) :
    (OpenRouter.to_record now raw).provider
      = (if (OpenRouter.extract_provider (some (OpenRouter.effectiveName raw))
              (some (OpenRouter.effectiveId raw))).isEmpty
        then py "unknown"
        else OpenRouter.extract_provider (some (OpenRouter.effectiveName raw))
              (some (OpenRouter.effectiveId raw))) := rfl

/-- C6 counterexample: for the listing item `{id: "org/model"}` with no
display name, the claim's rule ("else the substring of the identifier
before the first `/`") yields `"org"`, but `to_record` substitutes the
identifier for the missing name before calling `extract_provider`, so
the stored provider key is the whole lowercased identifier
`"org/model"`. -/
theorem provider_key_name_fallback_counterexample :
    (OpenRouter.to_record nowT
        { id := some (py "org/model"), name := none, description := none,
          created := none, pricing := none }).provider
      = py "org/model"
    ∧ py "org/model" ≠ py "org"
    ∧ pyLower (pyStrip ((py "org/model").takeWhile (fun c => c != 47))) = py "org" := by
  decide

/-- C6 amended: the provider key is derived from the *effective* name —
the display name when truthy, else the identifier.  The full fallback
chain: the key is the stripped lowercased portion of the effective
name before the first `:` whenever that portion is nonempty; when that
portion strips to empty, the stripped lowercased whole effective name
is used when it is nonempty; when the whole name also strips to empty,
the stripped lowercased identifier before the first `/` is used when
the identifier contains `/` (with `"unknown"` substituted when that
yields an empty key), else the key is the literal `"unknown"`; when
both the display name and the identifier are absent the key is
`"unknown"`; and the key (already at `extract_provider` level) is
always lowercase. -/
theorem provider_key_derivation_amended :
    (∀ (name mid : Option PyStr),
      pyLower (OpenRouter.extract_provider name mid)
        = OpenRouter.extract_provider name mid)
    ∧ (∀ (now : PyDateTime) (raw : OpenRouter.RawItem),
      pyLower ((OpenRouter.to_record now raw).provider)
        = (OpenRouter.to_record now raw).provider)
    ∧ (∀ (now : PyDateTime) (raw : OpenRouter.RawItem),
      pyStrip ((OpenRouter.effectiveName raw).takeWhile (fun c => c != 58)) ≠ [] →
      (OpenRouter.to_record now raw).provider
        = pyLower (pyStrip ((OpenRouter.effectiveName raw).takeWhile (fun c => c != 58))))
    ∧ (∀ (now : PyDateTime) (desc : Option PyStr) (created : Option Int)
        (pricing : Option (List (PyStr × PyStr))),
      (OpenRouter.to_record now
          { id := none, name := none, description := desc, created := created,
            pricing := pricing }).provider = py "unknown")
    ∧ (∀ (now : PyDateTime) (raw : OpenRouter.RawItem),
      pyStrip ((OpenRouter.effectiveName raw).takeWhile (fun c => c != 58)) = [] →
      pyStrip (OpenRouter.effectiveName raw) ≠ [] →
      (OpenRouter.to_record now raw).provider
        = pyLower (pyStrip (OpenRouter.effectiveName raw)))
    ∧ (∀ (now : PyDateTime) (raw : OpenRouter.RawItem),
      OpenRouter.effectiveName raw ≠ [] →
      pyStrip ((OpenRouter.effectiveName raw).takeWhile (fun c => c != 58)) = [] →
      pyStrip (OpenRouter.effectiveName raw) = [] →
      (!(OpenRouter.effectiveId raw).isEmpty
        && (OpenRouter.effectiveId raw).contains 47) = true →
      (OpenRouter.to_record now raw).provider
        = (if (pyLower (pyStrip ((OpenRouter.effectiveId raw).takeWhile
              (fun c => c != 47)))).isEmpty
          then py "unknown"
          else pyLower (pyStrip ((OpenRouter.effectiveId raw).takeWhile
            (fun c => c != 47)))))
    ∧ (∀ (now : PyDateTime) (raw : OpenRouter.RawItem),
      OpenRouter.effectiveName raw ≠ [] →
      pyStrip ((OpenRouter.effectiveName raw).takeWhile (fun c => c != 58)) = [] →
      pyStrip (OpenRouter.effectiveName raw) = [] →
      (!(OpenRouter.effectiveId raw).isEmpty
        && (OpenRouter.effectiveId raw).contains 47) = false →
      (OpenRouter.to_record now raw).provider = py "unknown") := by
  refine ⟨extract_provider_lowered, ?_, ?_, ?_, ?_, ?_, ?_⟩
  · intro now raw
    rw [to_record_provider_eq]
    by_cases he : (OpenRouter.extract_provider (some (OpenRouter.effectiveName raw))
        (some (OpenRouter.effectiveId raw))).isEmpty
    · simp only [he, if_true]
      decide
    · simp only [he, Bool.false_eq_true, if_false]
      exact extract_provider_lowered _ _
  · intro now raw h
    rw [to_record_provider_eq]
    have hne : (OpenRouter.effectiveName raw).isEmpty = false := by
      cases hc : OpenRouter.effectiveName raw with
      | nil => exact absurd (by rw [hc]; rfl) h
      | cons a as => rfl
    have hpr : (pyStrip ((OpenRouter.effectiveName raw).takeWhile (fun c => c != 58))).isEmpty
        = false := by
      cases hc : pyStrip ((OpenRouter.effectiveName raw).takeWhile (fun c => c != 58)) with
      | nil => exact absurd hc h
      | cons a as => rfl
    have hval : OpenRouter.extract_provider (some (OpenRouter.effectiveName raw))
        (some (OpenRouter.effectiveId raw))
        = pyLower (pyStrip ((OpenRouter.effectiveName raw).takeWhile (fun c => c != 58))) := by
      unfold OpenRouter.extract_provider
      simp only [hne, Bool.false_eq_true, if_false, hpr, Bool.not_false, if_true]
    rw [hval, pyLower_isEmpty, hpr]
    simp
  · intro now desc created pricing
    rfl
  · intro now raw hp hs
    rw [to_record_provider_eq]
    have hne : (OpenRouter.effectiveName raw).isEmpty = false := by
      cases hc : OpenRouter.effectiveName raw with
      | nil => exact absurd (show pyStrip (OpenRouter.effectiveName raw) = [] by rw [hc]; rfl) hs
      | cons a as => rfl
    have hprE : (pyStrip ((OpenRouter.effectiveName raw).takeWhile
        (fun c => c != 58))).isEmpty = true := by
      rw [hp]
      rfl
    have hsE : (pyStrip (OpenRouter.effectiveName raw)).isEmpty = false := by
      cases hc : pyStrip (OpenRouter.effectiveName raw) with
      | nil => exact absurd hc hs
      | cons a as => rfl
    have hval : OpenRouter.extract_provider (some (OpenRouter.effectiveName raw))
        (some (OpenRouter.effectiveId raw))
        = pyLower (pyStrip (OpenRouter.effectiveName raw)) := by
      unfold OpenRouter.extract_provider
      simp only [hne, Bool.false_eq_true, if_false, hprE, Bool.not_true, hsE,
        Bool.not_false, if_true]
    rw [hval, pyLower_isEmpty, hsE]
    simp
  · intro now raw hn hp hs hid
    rw [to_record_provider_eq]
    have hne : (OpenRouter.effectiveName raw).isEmpty = false := by
      cases hc : OpenRouter.effectiveName raw with
      | nil => exact absurd hc hn
      | cons a as => rfl
    have hprE : (pyStrip ((OpenRouter.effectiveName raw).takeWhile
        (fun c => c != 58))).isEmpty = true := by
      rw [hp]
      rfl
    have hsE : (pyStrip (OpenRouter.effectiveName raw)).isEmpty = true := by
      rw [hs]
      rfl
    have hval : OpenRouter.extract_provider (some (OpenRouter.effectiveName raw))
        (some (OpenRouter.effectiveId raw))
        = pyLower (pyStrip ((OpenRouter.effectiveId raw).takeWhile (fun c => c != 47))) := by
      unfold OpenRouter.extract_provider
      simp only [hne, Bool.false_eq_true, if_false, hprE, Bool.not_true, hsE, hid, if_true]
    rw [hval]
  · intro now raw hn hp hs hid
    rw [to_record_provider_eq]
    have hne : (OpenRouter.effectiveName raw).isEmpty = false := by
      cases hc : OpenRouter.effectiveName raw with
      | nil => exact absurd hc hn
      | cons a as => rfl
    have hprE : (pyStrip ((OpenRouter.effectiveName raw).takeWhile
        (fun c => c != 58))).isEmpty = true := by
      rw [hp]
      rfl
    have hsE : (pyStrip (OpenRouter.effectiveName raw)).isEmpty = true := by
      rw [hs]
      rfl
    have hval : OpenRouter.extract_provider (some (OpenRouter.effectiveName raw))
        (some (OpenRouter.effectiveId raw)) = py "unknown" := by
      unfold OpenRouter.extract_provider
      simp only [hne, Bool.false_eq_true, if_false, hprE, Bool.not_true, hsE, hid]
    rw [hval]
    rfl

/-- A stored row created later on the same calendar day than `nowT`. -/
def rowLate : ModelsRow :=
  { HF.freshRow recLlama1 with
    model_id := py "meta-llama/Llama-3"
    created_at := py "2024-06-15 23:00:00" }

/-- C7 (code evaluated at the failing input): `timeline` with
`preset="1y"` compares ISO-8601 window bounds (with `'T'` between date
and time) against the space-separated `created_at` text, and the
mismatch breaks the window semantics on boundary days.  During 2024,
the repository's own test data (rows with `created_at
"2024-01-01 00:00:00"`, chronologically inside `[Jan 1 2024, now]`
inclusive) is excluded entirely — `items` is empty although the test
asserts the rows are returned — while a row stamped later than `now`
on the same day is returned even though it lies outside the window. -/
theorem timeline_window_text_comparison_eval :
    (Backend.timeline_models (py "1y") none 1 5 (py "asc") none none nowT
        c2run.1.models []).items = []
    ∧ (Backend.timeline_models (py "1y") none 1 5 (py "asc") none none nowT
        c2run.1.models []).total = 0
    ∧ (Backend.timeline_models (py "1y") none 1 5 (py "asc") none none nowT
        c2run.1.models []).start = py "2024-01-01T00:00:00"
    ∧ (Backend.timeline_models (py "1y") none 1 5 (py "asc") none none nowT
        c2run.1.models []).stop = py "2024-06-15T12:00:00"
    ∧ c2run.1.models.length = 2
    ∧ (∀ r ∈ c2run.1.models, r.created_at = py "2024-01-01 00:00:00")
    ∧ tsFormat ⟨2024, 1, 1, 0, 0, 0, 0⟩ = py "2024-01-01 00:00:00"
    ∧ dtLe ⟨2024, 1, 1, 0, 0, 0, 0⟩ ⟨2024, 1, 1, 0, 0, 0, 0⟩ = true
    ∧ dtLe ⟨2024, 1, 1, 0, 0, 0, 0⟩ nowT = true
    ∧ (Backend.timeline_models (py "1y") none 1 5 (py "asc") none none nowT
        [rowLate] []).items.length = 1
    ∧ rowLate.created_at = tsFormat ⟨2024, 6, 15, 23, 0, 0, 0⟩
    ∧ dtLt nowT ⟨2024, 6, 15, 23, 0, 0, 0⟩ = true := by
  decide

/-- C8: for every valid request (`page ≥ 1`, `1 ≤ page_size ≤ 100`),
`list_models` returns at most `page_size` items; `total` is the count
of rows matching the same conjunctive filter; the returned page is the
slice of the `created_at`-descending ordering starting at offset
`(page-1)*page_size`; every returned item comes from a matching stored
row; and the items are ordered by `created_at` descending. -/
theorem list_models_pagination_bounds :
    ∀ (page page_size : Nat) (provider tag search : Option PyStr)
      (models : List ModelsRow),
      1 ≤ page → 1 ≤ page_size → page_size ≤ 100 →
      (Backend.list_models page page_size provider tag search models).items.length
          ≤ page_size
      ∧ (Backend.list_models page page_size provider tag search models).total
          = (models.filter (Backend.matchesFilter provider tag search)).length
      ∧ (Backend.list_models page page_size provider tag search models).items
          = (((List.insertionSort createdDesc
                (models.filter (Backend.matchesFilter provider tag search))).drop
              ((page - 1) * page_size)).take page_size).map Backend.toAPIModel
      ∧ (∀ x ∈ (Backend.list_models page page_size provider tag search models).items,
          ∃ row, row ∈ models ∧ Backend.matchesFilter provider tag search row = true
            ∧ x = Backend.toAPIModel row)
      ∧ (Backend.list_models page page_size provider tag search models).items.Pairwise
          (fun a b => strLe b.created_at a.created_at = true) := by
  intro page page_size provider tag search models hpage hps1 hps2
  refine ⟨?_, rfl, rfl, ?_, ?_⟩
  · show (List.map Backend.toAPIModel _).length ≤ page_size
    rw [List.length_map, List.length_take]
    exact min_le_left _ _
  · intro x hx
    rcases List.mem_map.mp hx with ⟨row, hrow, hxe⟩
    have h1 : row ∈ (List.insertionSort createdDesc
        (models.filter (Backend.matchesFilter provider tag search))).drop
          ((page - 1) * page_size) := (List.take_sublist _ _).subset hrow
    have h2 : row ∈ List.insertionSort createdDesc
        (models.filter (Backend.matchesFilter provider tag search)) :=
      (List.drop_sublist _ _).subset h1
    have h3 : row ∈ models.filter (Backend.matchesFilter provider tag search) :=
      (List.mem_insertionSort createdDesc).mp h2
    rcases List.mem_filter.mp h3 with ⟨hmem, hpred⟩
    exact ⟨row, hmem, hpred, hxe.symm⟩
  · show (List.map Backend.toAPIModel _).Pairwise _
    rw [List.pairwise_map]
    have hs : List.Sorted createdDesc (List.insertionSort createdDesc
        (models.filter (Backend.matchesFilter provider tag search))) :=
      List.sorted_insertionSort createdDesc _
    have hsub : List.Sublist
        (((List.insertionSort createdDesc
          (models.filter (Backend.matchesFilter provider tag search))).drop
            ((page - 1) * page_size)).take page_size)
        (List.insertionSort createdDesc
          (models.filter (Backend.matchesFilter provider tag search))) :=
      (List.take_sublist _ _).trans (List.drop_sublist _ _)
    exact List.Pairwise.sublist hsub hs

/-- Witness for C8 at a concrete request: page 1, page size 20, two
stored rows. -/
theorem list_models_pagination_bounds_witness :
    1 ≤ 1 ∧ 1 ≤ 20 ∧ 20 ≤ 100
      ∧ (Backend.list_models 1 20 none none none c2run.1.models).items.length ≤ 20 :=
  ⟨by decide, by decide, by decide,
    (list_models_pagination_bounds 1 20 none none none c2run.1.models
      (by decide) (by decide) (by decide)).1⟩

/-- C9: a model stored through the Hugging Face `save_models` with tag
list `["a", "b"]` reads back through the API tags parser as exactly
`["a", "b"]` (the writer dumps a JSON array, the reader parses it);
and on stored text that is not a JSON array (does not start with `[`
after stripping), the reader falls back to comma-splitting into
stripped nonempty tags. -/
theorem tags_round_trip :
    (∀ (db : DBState) (provider : PyStr) (r : HF.ModelRecord) (t0 t1 : PyStr),
      r.tags = [py "a", py "b"] →
      ∃ row, findModel ((HF.save_models db provider [r] t0 t1).1.models) r.model_id
          = some row
        ∧ Backend.parse_tags (some row.tags) = [py "a", py "b"])
    ∧ (∀ raw : PyStr, raw ≠ [] → startsWithL (py "[") (pyStrip raw) = false →
      Backend.parse_tags (some raw)
        = (splitOnCp 44 (pyStrip raw)).filterMap
            (fun t => let q := pyStrip t; if q.isEmpty then none else some q)) := by
  constructor
  · intro db provider r t0 t1 htags
    have hmod : ((HF.save_models db provider [r] t0 t1).1).models
        = HF.upsertModelRow db.models r := rfl
    rw [hmod]
    rcases findModel_upsert_hf_tags db.models r with ⟨row, hfind, htagseq⟩
    refine ⟨row, hfind, ?_⟩
    rw [htagseq, htags]
    decide
  · intro raw hne hsw
    have hre : raw.isEmpty = false := by
      cases raw
      · exact absurd rfl hne
      · rfl
    simp [Backend.parse_tags, hre, hsw]

/-- Witness for C9: a concrete record with tags `["a", "b"]` stored on
an empty database, and the comma fallback on the text `"a, b"`. -/
theorem tags_round_trip_witness :
    (∃ row, findModel ((HF.save_models emptyDB (py "meta-llama")
          [{ recLlama1 with tags := [py "a", py "b"] }]
          (py "t0") (py "t1")).1.models)
        ({ recLlama1 with tags := [py "a", py "b"] } : HF.ModelRecord).model_id
        = some row
      ∧ Backend.parse_tags (some row.tags) = [py "a", py "b"])
    ∧ Backend.parse_tags (some (py "a, b"))
        = (splitOnCp 44 (pyStrip (py "a, b"))).filterMap
            (fun t => let q := pyStrip t; if q.isEmpty then none else some q) :=
  ⟨tags_round_trip.1 emptyDB (py "meta-llama") _ (py "t0") (py "t1") (by decide),
   tags_round_trip.2 (py "a, b") (by decide) (by decide)⟩

theorem splitOnCp_ne_nil (sep : Nat) : ∀ s : PyStr, splitOnCp sep s ≠ []
  | [] => by simp [splitOnCp]
  | c :: rest => by
    simp only [splitOnCp]
    by_cases h : (c == sep) = true
    · simp [h]
    · simp only [h, Bool.false_eq_true, if_false]
      cases hr : splitOnCp sep rest <;> simp

theorem splitOnCp_lower (s : PyStr) :
    splitOnCp 44 (pyLower s) = (splitOnCp 44 s).map pyLower := by
  induction s with
  | nil => rfl
  | cons c rest ih =>
    have hc : (lowerCp c == 44) = (c == 44) := by
      unfold lowerCp
      by_cases h : 65 ≤ c ∧ c ≤ 90
      · rw [if_pos h]
        have h1 : (c + 32 == 44) = false := by
          simp only [beq_eq_false_iff_ne, ne_eq]
          omega
        have h2 : (c == 44) = false := by
          simp only [beq_eq_false_iff_ne, ne_eq]
          omega
        rw [h1, h2]
      · rw [if_neg h]
    show splitOnCp 44 (lowerCp c :: pyLower rest) = _
    simp only [splitOnCp, ih, hc]
    by_cases h : (c == 44) = true
    · simp [h, pyLower]
    · simp only [h, Bool.false_eq_true, if_false]
      cases hr : splitOnCp 44 rest with
      | nil => exact absurd hr (splitOnCp_ne_nil 44 rest)
      | cons hd tl => simp [pyLower]

/-- C10: allowlist normalization asymmetry.  The OpenRouter parser is
the Hugging Face parser followed by lowercasing every entry; the
OpenRouter parser is insensitive to the case of the configured text
(so matching against the always-lowercase derived provider keys ignores
configuration case); and the Hugging Face parser returns entries
stripped of surrounding whitespace with empty entries dropped — and,
being `pyLower`-free, preserves the configured letter case. -/
theorem allowlist_normalization_asymmetry :
    (∀ raw : Option PyStr,
      OpenRouter.get_providers raw = (HF.get_providers raw).map pyLower)
    ∧ (∀ raw : Option PyStr,
      OpenRouter.get_providers (raw.map pyLower) = OpenRouter.get_providers raw)
    ∧ (∀ (raw : Option PyStr) (e : PyStr), e ∈ HF.get_providers raw →
      pyStrip e = e ∧ e ≠ []) := by
  refine ⟨?_, ?_, ?_⟩
  · intro raw
    cases raw with
    | none => rfl
    | some s =>
      by_cases hs : s.isEmpty
      · simp [OpenRouter.get_providers, HF.get_providers, hs]
      · simp only [OpenRouter.get_providers, HF.get_providers, hs, Bool.false_eq_true,
          if_false]
        rw [List.map_filterMap]
        congr 1
        funext p
        by_cases hq : (pyStrip p).isEmpty
        · simp [hq]
        · simp [hq]
  · intro raw
    cases raw with
    | none => rfl
    | some s =>
      show OpenRouter.get_providers (some (pyLower s)) = OpenRouter.get_providers (some s)
      by_cases hs : s.isEmpty
      · simp [OpenRouter.get_providers, pyLower_isEmpty, hs]
      · simp only [OpenRouter.get_providers, pyLower_isEmpty, hs, Bool.false_eq_true,
          if_false]
        rw [splitOnCp_lower, List.filterMap_map]
        congr 1
        funext p
        show (let q := pyStrip (pyLower p);
            if q.isEmpty then none else some (pyLower q))
          = (let q := pyStrip p; if q.isEmpty then none else some (pyLower q))
        simp only [pyStrip_lower_comm, pyLower_isEmpty]
        by_cases hq : (pyStrip p).isEmpty
        · simp [hq]
        · simp [hq, pyLower_idem]
  · intro raw e he
    cases raw with
    | none => simp [HF.get_providers] at he
    | some s =>
      by_cases hs : s.isEmpty
      · simp [HF.get_providers, hs] at he
      · simp only [HF.get_providers, hs, Bool.false_eq_true, if_false] at he
        rcases List.mem_filterMap.mp he with ⟨p, _, hfp⟩
        by_cases hq : (pyStrip p).isEmpty
        · simp [hq] at hfp
        · simp only [hq, Bool.false_eq_true, if_false, Option.some.injEq] at hfp
          subst hfp
          refine ⟨pyStrip_idem p, ?_⟩
          intro hnil
          rw [hnil] at hq
          exact hq rfl

/-- Witness for C10: a concrete mixed-case config list — the Hugging
Face parser keeps `"Meta-Llama"` stripped with case intact, the
OpenRouter parser lowercases it. -/
theorem allowlist_normalization_asymmetry_witness :
    (pyStrip (py "Meta-Llama") = py "Meta-Llama" ∧ py "Meta-Llama" ≠ ([] : PyStr))
    ∧ OpenRouter.get_providers (some (py " Meta-Llama, google "))
        = (HF.get_providers (some (py " Meta-Llama, google "))).map pyLower :=
  ⟨allowlist_normalization_asymmetry.2.2 (some (py " Meta-Llama, google "))
      (py "Meta-Llama") (by decide),
   allowlist_normalization_asymmetry.1 (some (py " Meta-Llama, google "))⟩

/-- A listing item whose display name starts with `:`, so the portion
before the first `:` strips to empty while the whole name does not. -/
def rawColonName : OpenRouter.RawItem :=
  { id := some (py "org/model")
    name := some (py "  : X")
    description := none
    created := none
    pricing := none }

/-- A listing item whose display name is whitespace only, with an
identifier containing `/`. -/
def rawSpaceName : OpenRouter.RawItem :=
  { id := some (py "org/model")
    name := some (py "   ")
    description := none
    created := none
    pricing := none }

/-- A listing item whose display name is whitespace only, with an
identifier containing no `/`. -/
def rawSpaceNameNoSlash : OpenRouter.RawItem :=
  { id := some (py "orgmodel")
    name := some (py "   ")
    description := none
    created := none
    pricing := none }

/-- Witness for C6 amended, exercising every branch of the fallback
chain: `"OpenAI: GPT-4"` gets key `"openai"` (portion before `:`);
`"  : X"` gets key `": x"` (stripped whole name, since the portion
strips to empty); a whitespace-only name with identifier `"org/model"`
gets key `"org"` (identifier before `/`); a whitespace-only name with
identifier `"orgmodel"` gets key `"unknown"`. -/
theorem provider_key_derivation_amended_witness :
    ((OpenRouter.to_record nowT rawGpt).provider
        = pyLower (pyStrip ((OpenRouter.effectiveName rawGpt).takeWhile (fun c => c != 58)))
      ∧ (OpenRouter.to_record nowT rawGpt).provider = py "openai")
    ∧ ((OpenRouter.to_record nowT rawColonName).provider
        = pyLower (pyStrip (OpenRouter.effectiveName rawColonName))
      ∧ (OpenRouter.to_record nowT rawColonName).provider = py ": x")
    ∧ (OpenRouter.to_record nowT rawSpaceName).provider = py "org"
    ∧ (OpenRouter.to_record nowT rawSpaceNameNoSlash).provider = py "unknown" :=
  ⟨⟨provider_key_derivation_amended.2.2.1 nowT rawGpt (by decide), by decide⟩,
   ⟨provider_key_derivation_amended.2.2.2.2.1 nowT rawColonName (by decide) (by decide),
    by decide⟩,
   by
     rw [provider_key_derivation_amended.2.2.2.2.2.1 nowT rawSpaceName (by decide)
       (by decide) (by decide) (by decide)]
     decide,
   provider_key_derivation_amended.2.2.2.2.2.2 nowT rawSpaceNameNoSlash (by decide)
     (by decide) (by decide) (by decide)⟩
